import Mathlib

/-!
Verification development for the Cloud.dk cloud-controller-manager
load-balancer reconciliation engine (`clouddkcp` package).

The definitions below are a shallow embedding of the Go source:

* `load_balancers.go` — annotation parsing, hostname derivation, capacity
  tiers, the HAProxy configuration renderer, and the four load-balancer
  lifecycle entry points (`GetLoadBalancer`, `EnsureLoadBalancer`,
  `UpdateLoadBalancer`, `EnsureLoadBalancerDeleted`).
* `server.go` — the `CloudServer` lifecycle (`Create`, `Destroy`,
  `InitializeByHostname`) including the SSH readiness polling loop.

Conventions of the embedding:

* Go strings are Lean `String`s; the strings involved are ASCII, so Go's
  byte-length `len` coincides with `String.length`.
* Go `int` values are Lean `Int`; machine overflow is irrelevant for the
  values reached here, except in `atoi`, which mirrors `strconv.Atoi`'s
  64-bit range clamping explicitly.
* `(value, err)` pairs of Go are Lean pairs with an `Option String` error
  component.
* Effectful operations (HTTP calls to the Cloud.dk API, SSH/SFTP sessions)
  are modelled by explicit outcome records plus an emitted list of
  `Action`s, and the state of the remote instance is passed explicitly.
* Wall-clock time in the readiness polling loop is modelled in
  milliseconds; a dial attempt itself is modelled as instantaneous.
-/

namespace CloudDK

/-- Go `unicode.IsSpace` restricted to ASCII, which is all the
whitespace that occurs in the configuration templates
(`strings.TrimSpace` trims these from both ends). -/
def goIsSpace (c : Char) : Bool :=
  let n := c.toNat
  n == 32 || n == 9 || n == 10 || n == 13 || n == 11 || n == 12

/-- Left trim of `strings.TrimSpace`. -/
def trimL (l : List Char) : List Char := l.dropWhile goIsSpace

/-- Right trim of `strings.TrimSpace`. -/
def trimR (l : List Char) : List Char := (l.reverse.dropWhile goIsSpace).reverse

/-- Go `strings.TrimSpace`. -/
def goTrimSpace (s : String) : String := ⟨trimR (trimL s.data)⟩

/-- `pat` occurs as a contiguous substring of `s`. -/
def strContains (s pat : String) : Prop := pat.data <:+: s.data

instance (s pat : String) : Decidable (strContains s pat) :=
  inferInstanceAs (Decidable (pat.data <:+: s.data))

/-- Tail-recursive substring scan over the character list. -/
def containsAux (pat : List Char) : List Char → Bool
  | [] => pat.isEmpty
  | c :: t => pat.isPrefixOf (c :: t) || containsAux pat t

/-- Executable substring test agreeing with `strContains`. -/
def strContainsB (s pat : String) : Bool := containsAux pat.data s.data

theorem containsAux_iff (pat : List Char) :
    ∀ l : List Char, containsAux pat l = true ↔ pat <:+: l := by
  intro l
  induction l with
  | nil => simp [containsAux, List.isEmpty_iff, List.infix_nil]
  | cons c t ih =>
    simp only [containsAux, Bool.or_eq_true, List.isPrefixOf_iff_prefix, ih,
      List.infix_cons_iff]

theorem strContainsB_iff (s pat : String) : strContainsB s pat = true ↔ strContains s pat :=
  containsAux_iff pat.data s.data

theorem strContains_of_B {s pat : String} (h : strContainsB s pat = true) :
    strContains s pat := (strContainsB_iff s pat).mp h

theorem not_strContains_of_B {s pat : String} (h : strContainsB s pat = false) :
    ¬ strContains s pat := fun hc => by
  have h2 := (strContainsB_iff s pat).mpr hc
  rw [h] at h2
  exact Bool.noConfusion h2

/-- Value of a run of decimal digits. -/
def digitsToNat (l : List Char) : Nat :=
  l.foldl (fun acc c => acc * 10 + (c.toNat - 48)) 0

/-- Shallow embedding of Go `strconv.Atoi`: optional sign, then decimal
digits; a syntax error yields `(0, err)`; a value outside the 64-bit
signed range yields the clamped bound together with an error, as
`strconv.ParseInt` does. -/
def atoi (s : String) : Int × Option String :=
  let core : Bool × List Char :=
    match s.data with
    | '-' :: rest => (true, rest)
    | '+' :: rest => (false, rest)
    | l => (false, l)
  if core.2.isEmpty || !core.2.all Char.isDigit then
    (0, some ("parsing " ++ s ++ ": invalid syntax"))
  else
    let n : Int := (if core.1 then -1 else 1) * (digitsToNat core.2 : Int)
    if n < -(2 ^ 63) then (-(2 ^ 63), some ("parsing " ++ s ++ ": value out of range"))
    else if n > 2 ^ 63 - 1 then (2 ^ 63 - 1, some ("parsing " ++ s ++ ": value out of range"))
    else (n, none)

/-- `parseBoolAnnotation` from `load_balancers.go`: an absent value yields
the default; any present value is compared against the literal `"true"`
and the function never reports an error. -/
def parseBoolAnnotationValue (value : String) (defaultValue : Bool) : Bool × Option String :=
  if value = "" then (defaultValue, none)
  else (value == "true", none)

/-- `parseIntAnnotation` from `load_balancers.go`: an absent value yields
the default; otherwise the value is parsed with `strconv.Atoi` and
rejected when below `minValue` or above `maxValue`. -/
def parseIntAnnotationValue (value : String) (defaultValue minValue maxValue : Int) :
    Int × Option String :=
  if value = "" then (defaultValue, none)
  else
    let p := atoi value
    match p.2 with
    | some e => (p.1, some e)
    | none =>
      if p.1 < minValue then
        (p.1, some ("The value must be greater than " ++ toString minValue))
      else if p.1 > maxValue then
        (p.1, some ("The value must be smaller than " ++ toString maxValue))
      else (p.1, none)

/-- `parseStringAnnotation` from `load_balancers.go`: an absent value
yields the default; a present value must be one of the supported values. -/
def parseStringAnnotationValue (value defaultValue : String) (supportedValues : List String) :
    String × Option String :=
  if value = "" then (defaultValue, none)
  else if supportedValues.contains value then (value, none)
  else (value, some ("Unsupported value " ++ value))

/-- `getPackageIDByConnectionLimit` from `load_balancers.go`. -/
def getPackageIDByConnectionLimit (limit : Int) : String :=
  if limit ≤ 1000 then "89833c1dfa7010"
  else if limit ≤ 10000 then "e991abd8ef15c7"
  else "9559dbb4b71c45"

/-- `getProcessorCountByConnectionLimit` from `load_balancers.go`. -/
def getProcessorCountByConnectionLimit (limit : Int) : Int :=
  if limit ≤ 1000 then 1
  else if limit ≤ 10000 then 2
  else 4

/-- `getLoadBalancerNameByService` from `load_balancers.go`: the service
UID with every `-` removed, truncated to 32 characters. -/
def getLoadBalancerNameByService (serviceUID : String) : String :=
  let name : String := ⟨serviceUID.data.filter (fun c => c ≠ '-')⟩
  if name.length > 32 then ⟨name.data.take 32⟩ else name

end CloudDK

namespace CloudDK.MD5

/-- UTF-8 encoding of one character (the Go `io.WriteString` calls in
`getLoadBalancerHostname` write the UTF-8 bytes of the string). -/
def charBytes (c : Char) : List Nat :=
  let n := c.toNat
  if n < 0x80 then [n]
  else if n < 0x800 then
    [0xC0 ||| (n >>> 6), 0x80 ||| (n &&& 0x3F)]
  else if n < 0x10000 then
    [0xE0 ||| (n >>> 12), 0x80 ||| ((n >>> 6) &&& 0x3F), 0x80 ||| (n &&& 0x3F)]
  else
    [0xF0 ||| (n >>> 18), 0x80 ||| ((n >>> 12) &&& 0x3F),
     0x80 ||| ((n >>> 6) &&& 0x3F), 0x80 ||| (n &&& 0x3F)]

/-- UTF-8 bytes of a string. -/
def utf8Bytes (s : String) : List Nat := s.data.flatMap charBytes

/-- The 64 per-round additive constants of MD5 (RFC 1321). -/
def kTable : List Nat :=
  [0xd76aa478, 0xe8c7b756, 0x242070db, 0xc1bdceee,
   0xf57c0faf, 0x4787c62a, 0xa8304613, 0xfd469501,
   0x698098d8, 0x8b44f7af, 0xffff5bb1, 0x895cd7be,
   0x6b901122, 0xfd987193, 0xa679438e, 0x49b40821,
   0xf61e2562, 0xc040b340, 0x265e5a51, 0xe9b6c7aa,
   0xd62f105d, 0x02441453, 0xd8a1e681, 0xe7d3fbc8,
   0x21e1cde6, 0xc33707d6, 0xf4d50d87, 0x455a14ed,
   0xa9e3e905, 0xfcefa3f8, 0x676f02d9, 0x8d2a4c8a,
   0xfffa3942, 0x8771f681, 0x6d9d6122, 0xfde5380c,
   0xa4beea44, 0x4bdecfa9, 0xf6bb4b60, 0xbebfbc70,
   0x289b7ec6, 0xeaa127fa, 0xd4ef3085, 0x04881d05,
   0xd9d4d039, 0xe6db99e5, 0x1fa27cf8, 0xc4ac5665,
   0xf4292244, 0x432aff97, 0xab9423a7, 0xfc93a039,
   0x655b59c3, 0x8f0ccc92, 0xffeff47d, 0x85845dd1,
   0x6fa87e4f, 0xfe2ce6e0, 0xa3014314, 0x4e0811a1,
   0xf7537e82, 0xbd3af235, 0x2ad7d2bb, 0xeb86d391]

/-- The 64 per-round left-rotation amounts of MD5 (RFC 1321). -/
def sTable : List Nat :=
  [7, 12, 17, 22, 7, 12, 17, 22, 7, 12, 17, 22, 7, 12, 17, 22,
   5, 9, 14, 20, 5, 9, 14, 20, 5, 9, 14, 20, 5, 9, 14, 20,
   4, 11, 16, 23, 4, 11, 16, 23, 4, 11, 16, 23, 4, 11, 16, 23,
   6, 10, 15, 21, 6, 10, 15, 21, 6, 10, 15, 21, 6, 10, 15, 21]

/-- Bitwise complement within 32 bits. -/
def not32 (x : Nat) : Nat := x ^^^ 0xFFFFFFFF

/-- Left rotation within 32 bits. -/
def rotl32 (x n : Nat) : Nat := ((x <<< n) ||| (x >>> (32 - n))) % 2 ^ 32

/-- The running MD5 state: four 32-bit words. -/
structure State where
  a : Nat
  b : Nat
  c : Nat
  d : Nat

/-- The MD5 initialization vector. -/
def initState : State := ⟨0x67452301, 0xefcdab89, 0x98badcfe, 0x10325476⟩

/-- Little-endian 32-bit word `j` of a 64-byte block. -/
def blockWord (blk : List Nat) (j : Nat) : Nat :=
  blk.getD (4 * j) 0 + 256 * blk.getD (4 * j + 1) 0 +
    65536 * blk.getD (4 * j + 2) 0 + 16777216 * blk.getD (4 * j + 3) 0

/-- One MD5 round applied to the working tuple `(A, B, C, D)`. -/
def round (blk : List Nat) (st : State) (i : Nat) : State :=
  let fg : Nat × Nat :=
    if i < 16 then ((st.b &&& st.c) ||| (not32 st.b &&& st.d), i)
    else if i < 32 then ((st.d &&& st.b) ||| (not32 st.d &&& st.c), (5 * i + 1) % 16)
    else if i < 48 then (st.b ^^^ st.c ^^^ st.d, (3 * i + 5) % 16)
    else (st.c ^^^ (st.b ||| not32 st.d), (7 * i) % 16)
  let f := (fg.1 + st.a + kTable.getD i 0 + blockWord blk fg.2) % 2 ^ 32
  ⟨st.d, (st.b + rotl32 f (sTable.getD i 0)) % 2 ^ 32, st.b, st.c⟩

/-- Processing one 64-byte block: 64 rounds, then addition into the
running state modulo `2 ^ 32`. -/
def processBlock (st : State) (blk : List Nat) : State :=
  let w := (List.range 64).foldl (round blk) st
  ⟨(st.a + w.a) % 2 ^ 32, (st.b + w.b) % 2 ^ 32,
   (st.c + w.c) % 2 ^ 32, (st.d + w.d) % 2 ^ 32⟩

/-- Processing `n` consecutive 64-byte blocks. -/
def processBlocks (st : State) (l : List Nat) : Nat → State
  | 0 => st
  | n + 1 => processBlocks (processBlock st (l.take 64)) (l.drop 64) n

/-- MD5 padding: a `0x80` byte, zeros up to 56 modulo 64, then the bit
length as a little-endian 64-bit quantity. -/
def pad (msg : List Nat) : List Nat :=
  let z := (56 + 64 - (msg.length + 1) % 64) % 64
  let ml := (msg.length * 8) % 2 ^ 64
  msg ++ [0x80] ++ List.replicate z 0 ++ (List.range 8).map (fun i => (ml >>> (8 * i)) % 256)

/-- Little-endian serialization of one 32-bit word into four bytes. -/
def wordLEBytes (w : Nat) : List Nat :=
  [w % 256, (w >>> 8) % 256, (w >>> 16) % 256, (w >>> 24) % 256]

/-- The 16-byte MD5 digest of a byte sequence. -/
def digest (msg : List Nat) : List Nat :=
  let p := pad msg
  let st := processBlocks initState p (p.length / 64)
  wordLEBytes st.a ++ wordLEBytes st.b ++ wordLEBytes st.c ++ wordLEBytes st.d

end CloudDK.MD5

namespace CloudDK

/-- Lowercase hexadecimal digit for a value below 16, as produced by
Go `fmt.Sprintf "%x"`: 0-9 map to ASCII 48-57, 10-15 to ASCII 97-102. -/
def hexDigit (n : Nat) : Char := Char.ofNat (if n < 10 then 48 + n else 87 + n)

/-- Go `fmt.Sprintf "%x"` applied to a byte slice: two lowercase hex
digits per byte. -/
def hexOfBytes (l : List Nat) : List Char :=
  l.foldr (fun b acc => hexDigit (b / 16) :: hexDigit (b % 16) :: acc) []

/-- `getLoadBalancerHostname` from `load_balancers.go`: the fixed prefix
of `fmtLoadBalancerHostname` applied to the hex MD5 digest of the cluster
name followed by the load-balancer name. -/
def getLoadBalancerHostname (clusterName loadBalancerName : String) : String :=
  "k8s-load-balancer-" ++
    ⟨hexOfBytes (MD5.digest (MD5.utf8Bytes clusterName ++ MD5.utf8Bytes loadBalancerName))⟩

end CloudDK

namespace CloudDK

/-! ## Kubernetes-facing data model

Only the fields actually read by the load-balancer code are embedded:
service annotations, service ports (`Port`, `NodePort`), and node status
addresses (`Type`, `Address`). -/

/-- One entry of `node.Status.Addresses`. -/
structure NodeAddress where
  addrType : String
  address : String
  deriving Repr, DecidableEq

/-- A node, reduced to its status addresses. -/
structure KubeNode where
  addresses : List NodeAddress
  deriving Repr, DecidableEq

/-- One entry of `service.Spec.Ports`, reduced to `Port` and `NodePort`. -/
structure ServicePort where
  port : Int
  nodePort : Int
  deriving Repr, DecidableEq

/-- A service annotation map; Go map indexing yields `""` for an absent
key. -/
def annoGet (annos : List (String × String)) (k : String) : String :=
  match annos.find? (fun kv => kv.1 == k) with
  | some kv => kv.2
  | none => ""

/-- Annotation keys from `load_balancers.go`. -/
def annoLoadBalancerAlgorithm : String := "kubernetes.cloud.dk/load-balancer-algorithm"

def annoLoadBalancerClientTimeout : String := "kubernetes.cloud.dk/load-balancer-client-timeout"

def annoLoadBalancerConnectionLimit : String := "kubernetes.cloud.dk/load-balancer-connection-limit"

def annoLoadBalancerEnableProxyProtocol : String :=
  "kubernetes.cloud.dk/load-balancer-enable-proxy-protocol"

def annoLoadBalancerHealthCheckInterval : String :=
  "kubernetes.cloud.dk/load-balancer-health-check-interval"

def annoLoadBalancerHealthCheckThresholdHealthy : String :=
  "kubernetes.cloud.dk/load-balancer-health-check-threshold-healthy"

def annoLoadBalancerHealthCheckThresholdUnhealthy : String :=
  "kubernetes.cloud.dk/load-balancer-health-check-threshold-unhealthy"

def annoLoadBalancerHealthCheckTimeout : String :=
  "kubernetes.cloud.dk/load-balancer-health-check-timeout"

def annoLoadBalancerServerTimeout : String := "kubernetes.cloud.dk/load-balancer-server-timeout"

/-- The validated option record assembled by `UpdateLoadBalancer` from the
service annotations. -/
structure LBOptions where
  algorithm : String
  clientTimeout : Int
  connectionLimit : Int
  enableProxyProtocol : Bool
  healthCheckInterval : Int
  healthCheckThresholdHealthy : Int
  healthCheckThresholdUnhealthy : Int
  healthCheckTimeout : Int
  serverTimeout : Int
  deriving Repr, DecidableEq

/-- Lift a Go `(value, err)` pair into `Except`. -/
def liftParse {α : Type} (p : α × Option String) : Except String α :=
  match p.2 with
  | some e => Except.error e
  | none => Except.ok p.1

/-- The annotation-resolution prefix of `UpdateLoadBalancer`
(`load_balancers.go`, the current variant): each recognized key is parsed
in source order with its documented default and bounds, and the first
parse error aborts the whole update.  The boolean proxy-protocol parse
error is discarded by the source (`enableProxyProtocol, _ := ...`). -/
def resolveUpdateOptions (annos : List (String × String)) : Except String LBOptions := do
  let algorithm ← liftParse ( parseStringAnnotationValue (annoGet annos annoLoadBalancerAlgorithm)
    "roundrobin" ["leastconn", "roundrobin", "source"])
  let clientTimeout ← liftParse ( parseIntAnnotationValue
    (annoGet annos annoLoadBalancerClientTimeout) 30 1 86400)
  let connectionLimit ← liftParse ( parseIntAnnotationValue
    (annoGet annos annoLoadBalancerConnectionLimit) 1000 1 20000)
  let enableProxyProtocol :=
    ( parseBoolAnnotationValue (annoGet annos annoLoadBalancerEnableProxyProtocol) false).1
  let healthCheckInterval ← liftParse ( parseIntAnnotationValue
    (annoGet annos annoLoadBalancerHealthCheckInterval) 3 3 300)
  let healthCheckThresholdHealthy ← liftParse ( parseIntAnnotationValue
    (annoGet annos annoLoadBalancerHealthCheckThresholdHealthy) 5 2 10)
  let healthCheckThresholdUnhealthy ← liftParse ( parseIntAnnotationValue
    (annoGet annos annoLoadBalancerHealthCheckThresholdUnhealthy) 3 2 10)
  let healthCheckTimeout ← liftParse ( parseIntAnnotationValue
    (annoGet annos annoLoadBalancerHealthCheckTimeout) 5 3 300)
  let serverTimeout ← liftParse ( parseIntAnnotationValue
    (annoGet annos annoLoadBalancerServerTimeout) 60 1 86400)
  return ⟨algorithm, clientTimeout, connectionLimit, enableProxyProtocol, healthCheckInterval,
    healthCheckThresholdHealthy, healthCheckThresholdUnhealthy, healthCheckTimeout, serverTimeout⟩

/-! ## The configuration renderer of `UpdateLoadBalancer`

The Go code builds the HAProxy configuration text by string concatenation:
a `strings.TrimSpace`d global template, the `cpu-map` loop, a trimmed
defaults template, and per-port listen blocks followed by one server line
per external node address.  The templates below are byte-for-byte the Go
raw string literals (with `%d`/`%s` substitutions spelled as `++`). -/

/-- The raw (untrimmed) global template with the `nbproc` count
substituted. -/
def globalTemplate (processorCount : Int) : String :=
  "\nglobal\n\tlog /dev/log local0 info alert\n\tlog /dev/log local1 notice alert\n\n\tchroot /var/lib/haproxy\n\n\tstats socket /run/haproxy/admin.sock mode 660 level admin expose-fd listeners\n\tstats timeout 30s\n\n\tuser haproxy\n\tgroup haproxy\n\n\tca-base /etc/ssl/certs\n\tcrt-base /etc/ssl/private\n\n\tssl-default-bind-ciphers ECDH+AESGCM:DH+AESGCM:ECDH+AES256:DH+AES256:ECDH+AES128:DH+AES:RSA+AESGCM:RSA+AES:!aNULL:!MD5:!DSS\n\tssl-default-bind-options no-sslv3\n\n\tnbproc "
    ++ toString processorCount ++ "\n\tnbthread 2\n\t\t"

/-- The `cpu-map` loop: one line per worker index `1..processorCount`. -/
def cpuMapLines (processorCount : Int) : String :=
  (List.range processorCount.toNat).foldl
    (fun acc k => acc ++ "\tcpu-map " ++ toString (k + 1) ++ " " ++ toString (k + 1) ++ "\n") ""

/-- The raw (untrimmed) defaults template with its five substitutions. -/
def defaultsTemplate (algorithm : String) (maxconn healthCheckTimeout clientTimeout serverTimeout : Int) : String :=
  "\ndefaults\n\tbalance " ++ algorithm ++ "\n\tlog global\n\tmaxconn " ++ toString maxconn
    ++ "\n\tmode tcp\n\n\ttimeout check " ++ toString healthCheckTimeout
    ++ "s\n\ttimeout client " ++ toString clientTimeout
    ++ "s\n\ttimeout connect 5s\n\ttimeout server " ++ toString serverTimeout ++ "s\n\t\t"

/-- The raw (untrimmed) per-port listen template; the current variant
hard-codes `option tcp-check` inside the literal. -/
def listenTemplate (port : Int) : String :=
  "\nlisten " ++ toString port ++ "\n\tbind 0.0.0.0:" ++ toString port
    ++ "\n\n\toption tcp-check\n\t\t\t"

/-- One rendered server line (`serverLineFormat` with its arguments):
`\tserver %s:%d %s:%d maxconn %d check inter %d fall %d rise %d`, with an
optional ` send-proxy` suffix, then a newline. -/
def serverLine (enableProxyProtocol : Bool) (address : String)
    (nodePort maxconn healthCheckInterval fall rise : Int) : String :=
  "\tserver " ++ address ++ ":" ++ toString nodePort ++ " " ++ address ++ ":"
    ++ toString nodePort ++ " maxconn " ++ toString maxconn ++ " check inter "
    ++ toString healthCheckInterval ++ " fall " ++ toString fall ++ " rise " ++ toString rise
    ++ (if enableProxyProtocol then " send-proxy" else "") ++ "\n"

/-- The server lines of one listen block: the Go double loop over nodes
and their status addresses, skipping every address whose type is not
`ExternalIP`.  The divisions mirror `int(connectionLimit/processorCount)`
(`Int.tdiv` is Go's truncating division). -/
def portServerLines (o : LBOptions) (processorCount : Int) (nodes : List KubeNode)
    (p : ServicePort) : String :=
  nodes.foldl
    (fun acc node =>
      node.addresses.foldl
        (fun acc2 a =>
          if a.addrType ≠ "ExternalIP" then acc2
          else acc2 ++ serverLine o.enableProxyProtocol a.address p.nodePort
            (Int.tdiv o.connectionLimit processorCount) o.healthCheckInterval
            o.healthCheckThresholdUnhealthy o.healthCheckThresholdHealthy)
        acc)
    ""

/-- One full listen block: the trimmed listen template, a blank line, and
the server lines. -/
def listenBlock (o : LBOptions) (processorCount : Int) (nodes : List KubeNode)
    (p : ServicePort) : String :=
  goTrimSpace (listenTemplate p.port) ++ "\n\n" ++ portServerLines o processorCount nodes p

/-- The full configuration text generated by `UpdateLoadBalancer` for a
resolved option record, service ports and nodes. -/
def renderConfig (o : LBOptions) (ports : List ServicePort) (nodes : List KubeNode) : String :=
  let processorCount := getProcessorCountByConnectionLimit o.connectionLimit
  let head := goTrimSpace (globalTemplate processorCount) ++ "\n\n"
    ++ cpuMapLines processorCount ++ "\n"
    ++ goTrimSpace (defaultsTemplate o.algorithm (Int.tdiv o.connectionLimit processorCount)
        o.healthCheckTimeout o.clientTimeout o.serverTimeout) ++ "\n\n"
  ports.foldl (fun acc p => acc ++ listenBlock o processorCount nodes p) head

/-- The health-check directive selection of the second (older,
protocol-aware) `UpdateLoadBalancer` variant present in the repository:
`http` yields a path-based `httpchk`, `https` yields `ssl-hello-chk`, and
anything else yields `tcp-check`. -/
def healthCheckOption (healthCheckProtocol healthCheckPath : String) : String :=
  if healthCheckProtocol == "http" then
    "\toption httpchk GET " ++ healthCheckPath ++ " HTTP/1.0\n"
  else if healthCheckProtocol == "https" then "\toption ssl-hello-chk\n"
  else "\toption tcp-check\n"

end CloudDK

namespace CloudDK

/-! ## Effect model for the Cloud.dk server lifecycle (`server.go`)

The remote API and the SSH/SFTP channel are modelled by explicit outcome
records; each operation returns its result together with the list of
externally visible `Action`s it performed, in order.  The remote resource
store and the remote instance's filesystem are passed as explicit state
where a claim needs them. -/

/-- One IP address of a network interface (`clouddk.ServerBody`). -/
structure IPAddress where
  address : String
  deriving Repr, DecidableEq

/-- One network interface of a server. -/
structure NetworkInterface where
  ipAddresses : List IPAddress
  deriving Repr, DecidableEq

/-- The part of `clouddk.ServerBody` read by this code: identifier,
hostname and network interfaces.  The Go zero value has an empty
identifier, which the code uses as its "not initialized" test. -/
structure ServerInfo where
  identifier : String
  hostname : String
  networkInterfaces : List NetworkInterface
  deriving Repr, DecidableEq

/-- The zero value of `clouddk.ServerBody`. -/
def ServerInfo.empty : ServerInfo := ⟨"", "", []⟩

/-- Externally visible effects of the modelled operations, in order of
execution. -/
inductive Action where
  /-- The `POST cloudservers` request of `CloudServer.Create`. -/
  | createRequest
  /-- The `DELETE cloudservers/id` request of `CloudServer.Destroy`. -/
  | destroyServer
  /-- One SSH dial attempt of the readiness poll, at the given elapsed
  milliseconds. -/
  | dial (elapsedMs : Nat)
  /-- A file upload over SFTP to the given path. -/
  | upload (path : String)
  /-- The upload of the rendered HAProxy configuration text. -/
  | uploadConfig (contents : String)
  /-- A remote shell command execution. -/
  | runCommand
  /-- The `systemctl reload haproxy` command of `UpdateLoadBalancer`. -/
  | reload
  deriving Repr, DecidableEq

/-! ### The SSH readiness polling loop of `CloudServer.Create`

The Go loop samples the wall clock; here elapsed time is tracked in
milliseconds.  A dial attempt is made whenever the loop body runs with
`int64(elapsed.Seconds()) % 10 == 0`; a failed attempt sleeps one extra
second, and every iteration sleeps 200ms.  A dial attempt itself is
modelled as instantaneous.  The recursion is driven by explicit fuel;
`pollFuel` iterations are provably enough to reach the 300-second window
bound, so the fuel is an artifact of the embedding, not of the source. -/

/-- `timeMax` of the poll loop: 300 seconds, in milliseconds. -/
def pollWindowMs : Nat := 300000

/-- Enough loop iterations to cover the window at 200ms per iteration. -/
def pollFuel : Nat := 1500

/-- Result of the polling loop: whether a dial succeeded, the elapsed
time at exit, the elapsed times of all dial attempts (in order), and
whether the embedding's fuel ran out (provably never the case for
`pollFuel`). -/
structure PollResult where
  success : Bool
  finalElapsed : Nat
  attempts : List Nat
  fuelExhausted : Bool
  deriving Repr, DecidableEq

/-- The readiness polling loop.  `dialOk e` tells whether the dial
attempt at elapsed time `e` succeeds. -/
def pollLoop (dialOk : Nat → Bool) : Nat → Nat → PollResult
  | 0, e =>
    if e < pollWindowMs then ⟨false, e, [], true⟩ else ⟨false, e, [], false⟩
  | fuel + 1, e =>
    if e < pollWindowMs then
      if (e / 1000) % 10 == 0 then
        if dialOk e then ⟨true, e, [e], false⟩
        else
          let r := pollLoop dialOk fuel (e + 1200)
          ⟨r.success, r.finalElapsed, e :: r.attempts, r.fuelExhausted⟩
      else pollLoop dialOk fuel (e + 200)
    else ⟨false, e, [], false⟩

/-- Outcomes of the collaborator calls made by `CloudServer.Create`:
the create POST, the JSON decode of its response (with the decoded
server), the SSH dial attempts, and the post-connect SFTP/upload/
session/shell steps.  JSON encoding of the fixed request struct cannot
fail and is not modelled. -/
structure CreateOutcomes where
  postOk : Bool
  decodeOk : Bool
  response : ServerInfo
  dialOk : Nat → Bool
  sftpOk : Bool
  uploadOk : Bool
  sessionOk : Bool
  shellOk : Bool

/-- Failure cases of `CloudServer.Create`, in source order. -/
inductive CreateError where
  | alreadyInitialized
  | postFailed
  | decodeFailed
  | noNetworkInterfaces
  | sshTimeout
  | sftpFailed
  | uploadFailed
  | sessionFailed
  | shellFailed
  deriving Repr, DecidableEq

/-- Path of the APT configuration file uploaded by `CloudServer.Create`. -/
def pathAPTAutoConf : String := "/etc/apt/apt.conf.d/00auto-conf"

/-- `CloudServer.Create` (`server.go`): the create POST, the
zero-network-interfaces check (destroy on failure), the SSH readiness
poll (destroy on timeout), and the SFTP upload / SSH session / shell
provisioning steps (destroy on every failure). -/
def cloudServerCreate (s : ServerInfo) (o : CreateOutcomes) :
    Except CreateError ServerInfo × List Action :=
  if s.identifier ≠ "" then (Except.error CreateError.alreadyInitialized, [])
  else if !o.postOk then (Except.error CreateError.postFailed, [Action.createRequest])
  else if !o.decodeOk then (Except.error CreateError.decodeFailed, [Action.createRequest])
  else if o.response.networkInterfaces.length = 0 then
    (Except.error CreateError.noNetworkInterfaces, [Action.createRequest, Action.destroyServer])
  else
    let poll := pollLoop o.dialOk pollFuel 0
    let dials := poll.attempts.map Action.dial
    if !poll.success then
      (Except.error CreateError.sshTimeout,
        [Action.createRequest] ++ dials ++ [Action.destroyServer])
    else if !o.sftpOk then
      (Except.error CreateError.sftpFailed,
        [Action.createRequest] ++ dials ++ [Action.destroyServer])
    else if !o.uploadOk then
      (Except.error CreateError.uploadFailed,
        [Action.createRequest] ++ dials ++ [Action.destroyServer])
    else if !o.sessionOk then
      (Except.error CreateError.sessionFailed,
        [Action.createRequest] ++ dials ++ [Action.upload pathAPTAutoConf, Action.destroyServer])
    else if !o.shellOk then
      (Except.error CreateError.shellFailed,
        [Action.createRequest] ++ dials
          ++ [Action.upload pathAPTAutoConf, Action.runCommand, Action.destroyServer])
    else
      (Except.ok o.response,
        [Action.createRequest] ++ dials ++ [Action.upload pathAPTAutoConf, Action.runCommand])

/-! ### `createLoadBalancer` (`load_balancers.go`) -/

/-- Paths of the configuration files uploaded by `createLoadBalancer`. -/
def pathHAProxyOverrideConf : String := "/etc/systemd/system/haproxy.service.d/override.conf"

def pathLoadBalancerProvisionScript : String := "/tmp/clouddk_load_balancer_provisioner.sh"

def pathSecurityLimitsConf : String := "/etc/security/limits.conf"

def pathSysctlConf : String := "/etc/sysctl.d/20-maximum-performance.conf"

/-- Outcomes of the collaborator calls made by `createLoadBalancer`
after `CloudServer.Create` has returned: the SSH connection, the SFTP
client, the four configuration-file uploads, the SSH session, and the
provisioning-script execution. -/
structure LBCreateOutcomes where
  server : CreateOutcomes
  sshOk : Bool
  sftpOk : Bool
  uploadOverrideOk : Bool
  uploadScriptOk : Bool
  uploadLimitsOk : Bool
  uploadSysctlOk : Bool
  sessionOk : Bool
  scriptOk : Bool

/-- Failure cases of `createLoadBalancer`, in source order. -/
inductive LBCreateError where
  | badConnectionLimit (msg : String)
  | serverCreate (e : CreateError)
  | sshFailed
  | sftpFailed
  | uploadFailed (path : String)
  | sessionFailed
  | scriptFailed
  deriving Repr, DecidableEq

/-- `createLoadBalancer` (`load_balancers.go`): parse the
connection-limit annotation (failure aborts before anything is created),
create the server, then SSH/SFTP, upload the four configuration files,
open a session and run the provisioning script — destroying the server
on every failure after a successful create. -/
def createLoadBalancer (annos : List (String × String)) (o : LBCreateOutcomes) :
    Except LBCreateError ServerInfo × List Action :=
  let parsed := parseIntAnnotationValue (annoGet annos annoLoadBalancerConnectionLimit) 1000 1 20000
  match parsed.2 with
  | some e => (Except.error (LBCreateError.badConnectionLimit e), [])
  | none =>
    match cloudServerCreate ServerInfo.empty o.server with
    | (Except.error e, acts) => (Except.error (LBCreateError.serverCreate e), acts)
    | (Except.ok info, acts) =>
      if !o.sshOk then
        (Except.error LBCreateError.sshFailed, acts ++ [Action.destroyServer])
      else if !o.sftpOk then
        (Except.error LBCreateError.sftpFailed, acts ++ [Action.destroyServer])
      else if !o.uploadOverrideOk then
        (Except.error (LBCreateError.uploadFailed pathHAProxyOverrideConf),
          acts ++ [Action.destroyServer])
      else if !o.uploadScriptOk then
        (Except.error (LBCreateError.uploadFailed pathLoadBalancerProvisionScript),
          acts ++ [Action.upload pathHAProxyOverrideConf, Action.destroyServer])
      else if !o.uploadLimitsOk then
        (Except.error (LBCreateError.uploadFailed pathSecurityLimitsConf),
          acts ++ [Action.upload pathHAProxyOverrideConf,
            Action.upload pathLoadBalancerProvisionScript, Action.destroyServer])
      else if !o.uploadSysctlOk then
        (Except.error (LBCreateError.uploadFailed pathSysctlConf),
          acts ++ [Action.upload pathHAProxyOverrideConf,
            Action.upload pathLoadBalancerProvisionScript,
            Action.upload pathSecurityLimitsConf, Action.destroyServer])
      else if !o.sessionOk then
        (Except.error LBCreateError.sessionFailed,
          acts ++ [Action.upload pathHAProxyOverrideConf,
            Action.upload pathLoadBalancerProvisionScript,
            Action.upload pathSecurityLimitsConf, Action.upload pathSysctlConf,
            Action.destroyServer])
      else if !o.scriptOk then
        (Except.error LBCreateError.scriptFailed,
          acts ++ [Action.upload pathHAProxyOverrideConf,
            Action.upload pathLoadBalancerProvisionScript,
            Action.upload pathSecurityLimitsConf, Action.upload pathSysctlConf,
            Action.runCommand, Action.destroyServer])
      else
        (Except.ok info,
          acts ++ [Action.upload pathHAProxyOverrideConf,
            Action.upload pathLoadBalancerProvisionScript,
            Action.upload pathSecurityLimitsConf, Action.upload pathSysctlConf,
            Action.runCommand])

/-! ### The resource store and the hostname-keyed lookups -/

/-- The remote resource store as seen by one reconciliation call: the
server list returned by `GET cloudservers?hostname=...` filtering (the
whole list; the code itself filters by exact hostname), whether that
request (including response decoding) succeeds, and the HTTP status the
store would answer to a `DELETE`. -/
structure StoreWorld where
  servers : List ServerInfo
  listOk : Bool
  deleteStatus : Nat
  deriving Repr, DecidableEq

/-- Success test of `clouddk.DoClientRequest`.  Modelled from the spec:
the client library treats exactly the listed expected HTTP statuses as
success (`DELETE /resources/id` "accepts 200 or 404 as success"). -/
def doClientRequestOk (expectedStatuses : List Nat) (status : Nat) : Bool :=
  expectedStatuses.contains status

/-- `CloudServer.InitializeByHostname` (`server.go`): refuse when already
initialized or when the hostname is empty; issue the list request; scan
the returned list for an exact hostname match.  Returns the Go
`(notFound, err)` pair together with the resulting `s.Information`. -/
def initializeByHostname (s : ServerInfo) (hostname : String) (w : StoreWorld) :
    (Bool × Option String) × ServerInfo :=
  if s.identifier ≠ "" then ((false, some "The server has already been initialized"), s)
  else if hostname = "" then ((false, some "Cannot retrieve a server without a hostname"), s)
  else if !w.listOk then ((false, some "request failed"), s)
  else
    match w.servers.find? (fun v => v.hostname == hostname) with
    | some v => ((false, none), v)
    | none => ((true, some ("Failed to retrieve the server object for hostname " ++ hostname)), s)

/-- `CloudServer.Destroy` (`server.go`): refuse when not initialized;
issue the `DELETE` request, which accepts statuses 200 and 404; on
success reset `s.Information` to the zero value.  The updated store is
returned with the destroyed identifier removed. -/
def cloudServerDestroy (s : ServerInfo) (w : StoreWorld) :
    (Option String × ServerInfo × StoreWorld) × List Action :=
  if s.identifier = "" then ((some "The server has not been initialized", s, w), [])
  else if doClientRequestOk [200, 404] w.deleteStatus then
    ((none, ServerInfo.empty,
      ⟨w.servers.filter (fun v => v.identifier ≠ s.identifier), w.listOk, w.deleteStatus⟩),
      [Action.destroyServer])
  else ((some "Failed to destroy cloud server", s, w), [Action.destroyServer])

/-! ### The load-balancer entry points over the store model -/

/-- The hostname all four entry points derive for a service:
`getLoadBalancerHostname(clusterName, getLoadBalancerNameByService(service))`. -/
def hostnameForService (clusterName serviceUID : String) : String :=
  getLoadBalancerHostname clusterName (getLoadBalancerNameByService serviceUID)

/-- `EnsureLoadBalancerDeleted` (`load_balancers.go`): derive the
hostname, look the server up; a not-found lookup returns success
without touching the store; any other lookup failure is propagated;
a found server is destroyed and the destroy error, if any, is
propagated. -/
def ensureLoadBalancerDeleted (clusterName serviceUID : String) (w : StoreWorld) :
    Option String × StoreWorld :=
  let hostname := hostnameForService clusterName serviceUID
  let r := initializeByHostname ServerInfo.empty hostname w
  match r.1.2 with
  | some e => if r.1.1 then (none, w) else (some e, w)
  | none =>
    let d := cloudServerDestroy r.2 w
    match d.1.1 with
    | some e => (some e, w)
    | none => (none, d.1.2.2)

/-- The result triple of `GetLoadBalancer`: the ingress IP list of the
returned status, the `exists` flag, and the error. -/
structure LBStatusResult where
  ingress : List String
  found : Bool
  err : Option String
  deriving Repr, DecidableEq

/-- `GetLoadBalancer` (`load_balancers.go`): a not-found lookup yields
`(false, nil)`; any other lookup failure yields `(true, err)`; a found
server with no IP addresses yields `(true, err)`; otherwise the
collected addresses are returned with `(true, nil)`. -/
def getLoadBalancer (clusterName serviceUID : String) (w : StoreWorld) : LBStatusResult :=
  let hostname := hostnameForService clusterName serviceUID
  let r := initializeByHostname ServerInfo.empty hostname w
  match r.1.2 with
  | some e => if r.1.1 then ⟨[], false, none⟩ else ⟨[], true, some e⟩
  | none =>
    let ingresses := r.2.networkInterfaces.flatMap (fun nic => nic.ipAddresses.map IPAddress.address)
    if ingresses.length = 0 then
      ⟨[], true, some "No IP addresses available for load balancer"⟩
    else ⟨ingresses, true, none⟩

/-! ### `UpdateLoadBalancer` (`load_balancers.go`) -/

/-- The remote instance's relevant state: the HAProxy configuration file
at `/etc/haproxy/haproxy.cfg` (`none` when absent; `some ""` after
`sftp.Create` has truncated it but before a successful write). -/
structure InstanceState where
  haproxyCfg : Option String
  deriving Repr, DecidableEq

/-- Outcomes of the collaborator calls made by `UpdateLoadBalancer`
after rendering: SSH connect, SFTP client, `sftp.Create` of the
configuration file, the write, the SSH session, and the reload
command. -/
structure UpdateOutcomes where
  sshOk : Bool
  sftpOk : Bool
  createFileOk : Bool
  writeOk : Bool
  sessionOk : Bool
  reloadOk : Bool

/-- `UpdateLoadBalancer`: look the server up by derived hostname; fail
when it reports no network interfaces; resolve options; render the
configuration; upload it over SFTP; reload HAProxy.  A reload failure is
returned as the operation's error but performs no further writes: the
uploaded configuration stays in place. -/
def updateLoadBalancer (clusterName serviceUID : String) (annos : List (String × String))
    (ports : List ServicePort) (nodes : List KubeNode) (w : StoreWorld) (inst : InstanceState)
    (o : UpdateOutcomes) : Option String × InstanceState × List Action :=
  let hostname := hostnameForService clusterName serviceUID
  let r := initializeByHostname ServerInfo.empty hostname w
  match r.1.2 with
  | some e => (some e, inst, [])
  | none =>
    if r.2.networkInterfaces.length = 0 then
      (some "Cannot update load balancer due to lack of IP addresses", inst, [])
    else
      match resolveUpdateOptions annos with
      | Except.error e => (some e, inst, [])
      | Except.ok opts =>
        let contents := renderConfig opts ports nodes
        if !o.sshOk then (some "ssh failed", inst, [])
        else if !o.sftpOk then (some "sftp failed", inst, [])
        else if !o.createFileOk then (some "create file failed", inst, [])
        else if !o.writeOk then (some "write failed", ⟨some ""⟩, [])
        else if !o.sessionOk then
          (some "session failed", ⟨some contents⟩, [Action.uploadConfig contents])
        else if !o.reloadOk then
          (some "Failed to load the new configuration file",
            ⟨some contents⟩, [Action.uploadConfig contents, Action.reload])
        else (none, ⟨some contents⟩, [Action.uploadConfig contents, Action.reload])

end CloudDK

namespace CloudDK

/-! ## Facts about the hostname derivation (claim C1) -/

/-- Membership in the DNS-label-safe character set `[a-z0-9-]`. -/
def dnsLabelSafe (c : Char) : Bool :=
  let n := c.toNat
  (97 ≤ n && n ≤ 122) || (48 ≤ n && n ≤ 57) || n == 45

theorem digest_length (msg : List Nat) : (MD5.digest msg).length = 16 := by
  simp [MD5.digest, MD5.wordLEBytes]

theorem digest_bytes_lt (msg : List Nat) : ∀ b ∈ MD5.digest msg, b < 256 := by
  intro b hb
  simp only [MD5.digest, MD5.wordLEBytes, List.mem_append, List.mem_cons,
    List.not_mem_nil, or_false] at hb
  omega

theorem hexOfBytes_length (l : List Nat) : (hexOfBytes l).length = 2 * l.length := by
  induction l with
  | nil => rfl
  | cons b bs ih => simp [hexOfBytes] at ih ⊢; omega

theorem hexDigit_safe : ∀ n, n < 16 → dnsLabelSafe (hexDigit n) = true := by decide

theorem hexOfBytes_safe (l : List Nat) (h : ∀ b ∈ l, b < 256) :
    ∀ c ∈ hexOfBytes l, dnsLabelSafe c = true := by
  induction l with
  | nil => intro c hc; simp [hexOfBytes] at hc
  | cons b bs ih =>
    intro c hc
    have hb : b < 256 := h b (List.mem_cons_self b bs)
    simp only [hexOfBytes, List.foldr_cons, List.mem_cons] at hc
    rcases hc with h1 | h1 | h1
    · subst h1; exact hexDigit_safe _ (by omega)
    · subst h1; exact hexDigit_safe _ (Nat.mod_lt _ (by norm_num))
    · exact ih (fun x hx => h x (List.mem_cons_of_mem b hx)) c h1

theorem hostname_length (clusterName loadBalancerName : String) :
    (getLoadBalancerHostname clusterName loadBalancerName).length = 50 := by
  unfold getLoadBalancerHostname
  rw [String.length_append]
  have h1 : ("k8s-load-balancer-" : String).length = 18 := rfl
  have h2 : (String.mk (hexOfBytes (MD5.digest
      (MD5.utf8Bytes clusterName ++ MD5.utf8Bytes loadBalancerName)))).length
      = (hexOfBytes (MD5.digest (MD5.utf8Bytes clusterName ++ MD5.utf8Bytes loadBalancerName))).length := rfl
  rw [h1, h2, hexOfBytes_length, digest_length]

theorem hostname_safe (clusterName loadBalancerName : String) :
    (getLoadBalancerHostname clusterName loadBalancerName).data.all dnsLabelSafe = true := by
  unfold getLoadBalancerHostname
  rw [String.data_append, List.all_append]
  refine Bool.and_eq_true .. |>.mpr ⟨by decide, ?_⟩
  rw [List.all_eq_true]
  exact hexOfBytes_safe _ (digest_bytes_lt _)

theorem hostname_ne_empty (clusterName loadBalancerName : String) :
    getLoadBalancerHostname clusterName loadBalancerName ≠ "" := by
  intro h
  have := hostname_length clusterName loadBalancerName
  rw [h] at this
  exact absurd this (by decide)

/-! ## String containment and trimming lemmas for the renderer -/

theorem strContains_self (p : String) : strContains p p := List.infix_refl _

theorem strContains_left {s p : String} (t : String) (h : strContains s p) :
    strContains (s ++ t) p := by
  unfold strContains at *
  rw [String.data_append]
  exact h.trans (List.prefix_append s.data t.data).isInfix

theorem strContains_right {t p : String} (s : String) (h : strContains t p) :
    strContains (s ++ t) p := by
  unfold strContains at *
  rw [String.data_append]
  exact h.trans (List.suffix_append s.data t.data).isInfix

theorem strContains_trans {s m p : String} (h1 : strContains m p) (h2 : strContains s m) :
    strContains s p := List.IsInfix.trans h1 h2

theorem strContains_middle (a p b : String) : strContains (a ++ p ++ b) p :=
  strContains_left b (strContains_right a (strContains_self p))

theorem trimL_append (l1 l2 : List Char) (h : (trimL l1).isEmpty = false) :
    trimL (l1 ++ l2) = trimL l1 ++ l2 := by
  unfold trimL at *
  simp [List.dropWhile_append, h]

theorem trimR_append (l1 l2 : List Char) (h : (l2.reverse.dropWhile goIsSpace).isEmpty = false) :
    trimR (l1 ++ l2) = l1 ++ trimR l2 := by
  unfold trimR
  rw [List.reverse_append, List.dropWhile_append, if_neg (by simp [h]), List.reverse_append,
    List.reverse_reverse]

theorem goTrimSpace_sandwich (A M T : String) (hA : (trimL A.data).isEmpty = false)
    (hT : (T.data.reverse.dropWhile goIsSpace).isEmpty = false) :
    goTrimSpace (A ++ M ++ T) = ⟨trimL A.data ++ M.data ++ trimR T.data⟩ := by
  have h1 : (A ++ M ++ T).data = A.data ++ (M.data ++ T.data) := by
    simp [String.data_append]
  unfold goTrimSpace
  rw [h1, trimL_append _ _ hA,
    show trimL A.data ++ (M.data ++ T.data) = trimL A.data ++ M.data ++ T.data from
      (List.append_assoc _ _ _).symm,
    trimR_append _ _ hT]

theorem empty_append_str (s : String) : "" ++ s = s := by
  apply String.ext
  rw [String.data_append]
  rfl

theorem append_empty_str (s : String) : s ++ "" = s := by
  apply String.ext
  rw [String.data_append]
  exact List.append_nil _

/-- Concatenation of the rendered pieces of a list of inputs. -/
def concatMap {α : Type} (f : α → String) : List α → String
  | [] => ""
  | x :: xs => f x ++ concatMap f xs

theorem concatMap_nil {α : Type} (f : α → String) : concatMap f [] = "" := rfl

theorem concatMap_cons {α : Type} (f : α → String) (x : α) (xs : List α) :
    concatMap f (x :: xs) = f x ++ concatMap f xs := rfl

theorem concatMap_append {α : Type} (f : α → String) (l1 l2 : List α) :
    concatMap f (l1 ++ l2) = concatMap f l1 ++ concatMap f l2 := by
  induction l1 with
  | nil => rw [List.nil_append, concatMap_nil, empty_append_str]
  | cons x xs ih => rw [List.cons_append, concatMap_cons, concatMap_cons, ih, String.append_assoc]

theorem concatMap_mem_contains {α : Type} (f : α → String) {x : α} :
    ∀ {l : List α}, x ∈ l → strContains (concatMap f l) (f x) := by
  intro l h
  induction l with
  | nil => cases h
  | cons y ys ih =>
    rcases List.mem_cons.mp h with rfl | h2
    · exact strContains_left _ (strContains_self (f x))
    · exact strContains_right _ (ih h2)

/-- A Go-style `s = s + piece` loop is a `concatMap`. -/
theorem foldl_append_shift {α : Type} (f : α → String) :
    ∀ (l : List α) (init : String),
      l.foldl (fun acc y => acc ++ f y) init = init ++ concatMap f l := by
  intro l
  induction l with
  | nil => intro init; exact (append_empty_str init).symm
  | cons x xs ih =>
    intro init
    simp only [List.foldl_cons, concatMap]
    rw [ih, String.append_assoc]

/-- The inner address loop of the renderer: the `continue` on non-external
addresses makes it a filtered `concatMap`. -/
theorem addrFoldl_eq (L : NodeAddress → String) :
    ∀ (addrs : List NodeAddress) (init : String),
      addrs.foldl (fun acc a => if a.addrType ≠ "ExternalIP" then acc else acc ++ L a) init
        = init ++ concatMap L (addrs.filter (fun a => a.addrType == "ExternalIP")) := by
  intro addrs
  induction addrs with
  | nil => intro init; exact (append_empty_str init).symm
  | cons a as ih =>
    intro init
    by_cases h : a.addrType = "ExternalIP"
    · simp only [List.foldl_cons, List.filter_cons, h, if_neg (by simp : ¬ ("ExternalIP" : String) ≠ "ExternalIP")]
      rw [ih, if_pos (by exact beq_self_eq_true _), concatMap, String.append_assoc]
    · simp only [List.foldl_cons, List.filter_cons, if_pos h]
      rw [ih, if_neg (by simpa using h)]

/-- The outer node loop of the renderer. -/
theorem nodeFoldl_eq (L : NodeAddress → String) :
    ∀ (nodes : List KubeNode) (init : String),
      nodes.foldl
        (fun acc nd =>
          nd.addresses.foldl (fun acc2 a => if a.addrType ≠ "ExternalIP" then acc2 else acc2 ++ L a) acc)
        init
      = init
        ++ concatMap L (nodes.flatMap (fun nd => nd.addresses.filter (fun a => a.addrType == "ExternalIP"))) := by
  intro nodes
  induction nodes with
  | nil => intro init; exact (append_empty_str init).symm
  | cons nd nds ih =>
    intro init
    simp only [List.foldl_cons, List.flatMap_cons]
    rw [addrFoldl_eq, ih, concatMap_append, String.append_assoc]

/-- The external node addresses, in render order. -/
def externalAddresses (nodes : List KubeNode) : List NodeAddress :=
  nodes.flatMap (fun nd => nd.addresses.filter (fun a => a.addrType == "ExternalIP"))

/-- Every server line of a listen block is rendered by `serverLine` with
the connection ceiling `connectionLimit / processorCount`, one line per
external node address in order. -/
theorem portServerLines_eq (o : LBOptions) (pc : Int) (nodes : List KubeNode) (p : ServicePort) :
    portServerLines o pc nodes p
      = concatMap
          (fun a => serverLine o.enableProxyProtocol a.address p.nodePort
            (Int.tdiv o.connectionLimit pc) o.healthCheckInterval
            o.healthCheckThresholdUnhealthy o.healthCheckThresholdHealthy)
          (externalAddresses nodes) := by
  unfold portServerLines externalAddresses
  rw [nodeFoldl_eq, empty_append_str]

/-- The fixed prefix of the rendered configuration: global block, cpu-map
lines and defaults block. -/
def renderHead (o : LBOptions) : String :=
  let processorCount := getProcessorCountByConnectionLimit o.connectionLimit
  goTrimSpace (globalTemplate processorCount) ++ "\n\n"
    ++ cpuMapLines processorCount ++ "\n"
    ++ goTrimSpace (defaultsTemplate o.algorithm (Int.tdiv o.connectionLimit processorCount)
        o.healthCheckTimeout o.clientTimeout o.serverTimeout) ++ "\n\n"

/-- The rendered configuration is the head followed by one listen block
per service port, in order. -/
theorem renderConfig_eq (o : LBOptions) (ports : List ServicePort) (nodes : List KubeNode) :
    renderConfig o ports nodes
      = renderHead o
        ++ concatMap (listenBlock o (getProcessorCountByConnectionLimit o.connectionLimit) nodes)
          ports := by
  unfold renderConfig renderHead
  rw [foldl_append_shift]

/-- Trimmed normal form of the listen template: the block opened for a
port always carries the `option tcp-check` directive. -/
theorem goTrimSpace_listenTemplate (port : Int) :
    goTrimSpace (listenTemplate port)
      = "listen " ++ (toString port ++ "\n\tbind 0.0.0.0:" ++ toString port)
          ++ "\n\n\toption tcp-check" := by
  have hsplit : listenTemplate port
      = "\nlisten " ++ (toString port ++ "\n\tbind 0.0.0.0:" ++ toString port)
          ++ "\n\n\toption tcp-check\n\t\t\t" := by
    unfold listenTemplate
    simp only [String.append_assoc]
  rw [hsplit, goTrimSpace_sandwich _ _ _ (by decide) (by decide)]
  apply String.ext
  rw [show trimL ("\nlisten " : String).data = ("listen " : String).data from rfl,
    show trimR ("\n\n\toption tcp-check\n\t\t\t" : String).data
      = ("\n\n\toption tcp-check" : String).data from rfl]
  simp [String.data_append]

/-- Trimmed normal form of the defaults template. -/
theorem goTrimSpace_defaultsTemplate (alg : String) (mc hct ct st : Int) :
    goTrimSpace (defaultsTemplate alg mc hct ct st)
      = "defaults\n\tbalance "
          ++ (alg ++ "\n\tlog global\n\tmaxconn " ++ toString mc
            ++ "\n\tmode tcp\n\n\ttimeout check " ++ toString hct
            ++ "s\n\ttimeout client " ++ toString ct
            ++ "s\n\ttimeout connect 5s\n\ttimeout server " ++ toString st)
          ++ "s" := by
  have hsplit : defaultsTemplate alg mc hct ct st
      = "\ndefaults\n\tbalance "
          ++ (alg ++ "\n\tlog global\n\tmaxconn " ++ toString mc
            ++ "\n\tmode tcp\n\n\ttimeout check " ++ toString hct
            ++ "s\n\ttimeout client " ++ toString ct
            ++ "s\n\ttimeout connect 5s\n\ttimeout server " ++ toString st)
          ++ "s\n\t\t" := by
    unfold defaultsTemplate
    simp only [String.append_assoc]
  rw [hsplit, goTrimSpace_sandwich _ _ _ (by decide) (by decide)]
  apply String.ext
  rw [show trimL ("\ndefaults\n\tbalance " : String).data
      = ("defaults\n\tbalance " : String).data from rfl,
    show trimR ("s\n\t\t" : String).data = ("s" : String).data from rfl]
  simp [String.data_append]

/-- The defaults block carries `maxconn` equal to the given value. -/
theorem defaults_contains_maxconn (alg : String) (mc hct ct st : Int) :
    strContains (goTrimSpace (defaultsTemplate alg mc hct ct st))
      ("\n\tmaxconn " ++ toString mc ++ "\n\tmode tcp") := by
  rw [goTrimSpace_defaultsTemplate]
  have e : "defaults\n\tbalance "
        ++ (alg ++ "\n\tlog global\n\tmaxconn " ++ toString mc
          ++ "\n\tmode tcp\n\n\ttimeout check " ++ toString hct
          ++ "s\n\ttimeout client " ++ toString ct
          ++ "s\n\ttimeout connect 5s\n\ttimeout server " ++ toString st)
        ++ "s"
      = ("defaults\n\tbalance " ++ alg ++ "\n\tlog global")
        ++ ("\n\tmaxconn " ++ toString mc ++ "\n\tmode tcp")
        ++ ("\n\n\ttimeout check " ++ toString hct ++ "s\n\ttimeout client " ++ toString ct
          ++ "s\n\ttimeout connect 5s\n\ttimeout server " ++ toString st ++ "s") := by
    simp only [show ("\n\tlog global\n\tmaxconn " : String)
        = "\n\tlog global" ++ "\n\tmaxconn " from rfl,
      show ("\n\tmode tcp\n\n\ttimeout check " : String)
        = "\n\tmode tcp" ++ "\n\n\ttimeout check " from rfl,
      String.append_assoc]
  rw [e]
  exact strContains_middle _ _ _

/-! ## Facts about the readiness polling loop (claim C8) -/

/-- `pollFuel` iterations always suffice: the loop never runs out of
fuel, i.e. it always exits through its own `elapsed < timeMax` guard or
through a successful dial. -/
theorem pollLoop_fuel_enough (d : Nat → Bool) :
    ∀ (fuel e : Nat), pollWindowMs ≤ e + 200 * fuel →
      (pollLoop d fuel e).fuelExhausted = false := by
  intro fuel
  induction fuel with
  | zero =>
    intro e h
    unfold pollWindowMs at h
    unfold pollLoop pollWindowMs
    rw [if_neg (by omega)]
  | succ n ih =>
    intro e h
    unfold pollWindowMs at h
    unfold pollLoop
    by_cases he : e < pollWindowMs
    · rw [if_pos he]
      by_cases hd : ((e / 1000) % 10 == 0) = true
      · rw [if_pos hd]
        by_cases hok : d e = true
        · rw [if_pos hok]
        · rw [if_neg (by simp [hok])]
          exact ih (e + 1200) (by unfold pollWindowMs; omega)
      · rw [if_neg (by simp at hd ⊢; omega)]
        exact ih (e + 200) (by unfold pollWindowMs; omega)
    · rw [if_neg he]

/-- The loop's exit time is bounded: starting below the window plus one
iteration, it ends below `timeMax` plus the largest single step
(1200ms). -/
theorem pollLoop_finalElapsed_lt (d : Nat → Bool) :
    ∀ (fuel e : Nat), e < 301200 → (pollLoop d fuel e).finalElapsed < 301200 := by
  intro fuel
  induction fuel with
  | zero =>
    intro e h
    unfold pollLoop
    by_cases he : e < pollWindowMs
    · rw [if_pos he]; exact h
    · rw [if_neg he]; exact h
  | succ n ih =>
    intro e h
    unfold pollLoop
    by_cases he : e < pollWindowMs
    · rw [if_pos he]
      unfold pollWindowMs at he
      by_cases hd : ((e / 1000) % 10 == 0) = true
      · rw [if_pos hd]
        by_cases hok : d e = true
        · rw [if_pos hok]; exact h
        · rw [if_neg (by simp [hok])]
          exact ih (e + 1200) (by omega)
      · rw [if_neg (by simp at hd ⊢; omega)]
        exact ih (e + 200) (by omega)
    · rw [if_neg he]; exact h

/-- Every dial attempt happens strictly inside the 300-second window, at
an elapsed time whose whole-second value is a multiple of ten (the
10-second sampling cadence), and no earlier than the loop's entry
time. -/
theorem pollLoop_attempts_spec (d : Nat → Bool) :
    ∀ (fuel e : Nat), ∀ t ∈ (pollLoop d fuel e).attempts,
      e ≤ t ∧ t < pollWindowMs ∧ (t / 1000) % 10 = 0 := by
  intro fuel
  induction fuel with
  | zero =>
    intro e t ht
    unfold pollLoop at ht
    by_cases he : e < pollWindowMs
    · rw [if_pos he] at ht; cases ht
    · rw [if_neg he] at ht; cases ht
  | succ n ih =>
    intro e t ht
    unfold pollLoop at ht
    by_cases he : e < pollWindowMs
    · rw [if_pos he] at ht
      by_cases hd : ((e / 1000) % 10 == 0) = true
      · rw [if_pos hd] at ht
        by_cases hok : d e = true
        · rw [if_pos hok] at ht
          rcases List.mem_singleton.mp ht with rfl
          exact ⟨Nat.le_refl _, he, by simpa using hd⟩
        · rw [if_neg (by simp [hok])] at ht
          replace ht : t ∈ e :: (pollLoop d n (e + 1200)).attempts := ht
          rcases List.mem_cons.mp ht with rfl | h2
          · exact ⟨Nat.le_refl _, he, by simpa using hd⟩
          · have := ih (e + 1200) t h2
            exact ⟨by omega, this.2.1, this.2.2⟩
      · rw [if_neg (by simp at hd ⊢; omega)] at ht
        have := ih (e + 200) t ht
        exact ⟨by omega, this.2.1, this.2.2⟩
    · rw [if_neg he] at ht; cases ht

theorem hostnameForService_ne_empty (clusterName serviceUID : String) :
    hostnameForService clusterName serviceUID ≠ "" :=
  hostname_ne_empty _ _

/-- Whether an `Except` value is an error. -/
def isError {ε α : Type} : Except ε α → Bool
  | Except.error _ => true
  | Except.ok _ => false

theorem bool_false_of_not_true {b : Bool} (h : ¬ b = true) : b = false := by
  cases b
  · rfl
  · exact absurd rfl h

/-- The option record produced by resolution when no annotation is set:
the documented defaults. -/
def defaultLBOptions : LBOptions := ⟨"roundrobin", 30, 1000, false, 3, 5, 3, 5, 60⟩

end CloudDK

namespace CloudDK

/-! ## Claim C1 -/

/-- C1 (confirmed): `getLoadBalancerHostname` is a pure function of its
two inputs — same inputs give the same output string — and every output
has the fixed length 50 (the 18-character prefix `k8s-load-balancer-`
plus a 32-character hex MD5 digest) with every character in the
DNS-label-safe set `[a-z0-9-]`. -/
theorem c1_hostname_pure_bounded_safe (clusterName loadBalancerName : String) :
    getLoadBalancerHostname clusterName loadBalancerName
        = getLoadBalancerHostname clusterName loadBalancerName
      ∧ (getLoadBalancerHostname clusterName loadBalancerName).length = 18 + 32
      ∧ (getLoadBalancerHostname clusterName loadBalancerName).data.all dnsLabelSafe = true :=
  ⟨rfl, hostname_length clusterName loadBalancerName, hostname_safe clusterName loadBalancerName⟩

/-! ## Claim C3 -/

/-- C3 (counterexample): an unrecognized value of the boolean
proxy-protocol annotation is not a validation failure — `"yes"` is
silently coerced to `false` with no error. -/
theorem c3_counterexample_bool_coerced :
    parseBoolAnnotationValue "yes" false = (false, none) := rfl

/-- C3 (amended): for every integer option, an absent annotation yields
the documented default, and a successfully parsed value below the minimum
or above the maximum makes resolution fail with an error while the
returned value stays the parsed (never clamped) one; connection-limit
values `0` and `25000` are rejected; an absent enum option yields its
default and a value outside the supported set is rejected; resolving an
empty annotation map yields exactly the documented defaults.  The boolean
proxy-protocol option, however, never fails: absent yields the default
and any present value is compared against `"true"`, silently coercing
every unrecognized value to `false`. -/
theorem c3_amended_resolution_bounds :
    (∀ d mn mx : Int, parseIntAnnotationValue "" d mn mx = (d, none))
      ∧ (∀ (v : String) (d mn mx : Int), (atoi v).2 = none → (atoi v).1 < mn →
          parseIntAnnotationValue v d mn mx = ((atoi v).1,
            some ("The value must be greater than " ++ toString mn)))
      ∧ (∀ (v : String) (d mn mx : Int), (atoi v).2 = none → ¬ (atoi v).1 < mn →
          (atoi v).1 > mx →
          parseIntAnnotationValue v d mn mx = ((atoi v).1,
            some ("The value must be smaller than " ++ toString mx)))
      ∧ ( parseIntAnnotationValue "0" 1000 1 20000).2.isSome = true
      ∧ ( parseIntAnnotationValue "25000" 1000 1 20000).2.isSome = true
      ∧ isError (resolveUpdateOptions [(annoLoadBalancerConnectionLimit, "0")]) = true
      ∧ isError (resolveUpdateOptions [(annoLoadBalancerConnectionLimit, "25000")]) = true
      ∧ resolveUpdateOptions [] = Except.ok defaultLBOptions
      ∧ (∀ (d : String) (vs : List String), parseStringAnnotationValue "" d vs = (d, none))
      ∧ (∀ (v d : String) (vs : List String), v ≠ "" → v ∉ vs →
          parseStringAnnotationValue v d vs = (v, some ("Unsupported value " ++ v)))
      ∧ (∀ b : Bool, parseBoolAnnotationValue "" b = (b, none))
      ∧ (∀ (v : String) (b : Bool), v ≠ "" → parseBoolAnnotationValue v b = ((v == "true"), none)) := by
  refine ⟨fun d mn mx => rfl, ?_, ?_, rfl, rfl, rfl, rfl, rfl, ?_, ?_, fun b => rfl, ?_⟩
  · intro v d mn mx h1 h2
    have hv : v ≠ "" := by
      intro he
      subst he
      simp [atoi] at h1
    simp only [parseIntAnnotationValue, if_neg hv]
    rw [h1]
    simp only [if_pos h2]
  · intro v d mn mx h1 h2 h3
    have hv : v ≠ "" := by
      intro he
      subst he
      simp [atoi] at h1
    simp only [parseIntAnnotationValue, if_neg hv]
    rw [h1]
    simp only [if_neg h2, if_pos h3]
  · intro d vs
    rfl
  · intro v d vs h1 h2
    simp only [parseStringAnnotationValue, if_neg h1]
    rw [if_neg (by simpa using h2)]
  · intro v b h
    simp only [parseBoolAnnotationValue, if_neg h]

/-- C3 witness. -/
theorem c3_amended_witness :
    parseIntAnnotationValue "" 1000 1 20000 = (1000, none)
      ∧ parseIntAnnotationValue "0" 1000 1 20000
          = (0, some "The value must be greater than 1")
      ∧ parseIntAnnotationValue "25000" 1000 1 20000
          = (25000, some "The value must be smaller than 20000")
      ∧ parseStringAnnotationValue "fastest" "roundrobin" ["leastconn", "roundrobin", "source"]
          = ("fastest", some "Unsupported value fastest")
      ∧ parseBoolAnnotationValue "yes" false = (false, none) :=
  ⟨c3_amended_resolution_bounds.1 1000 1 20000,
    c3_amended_resolution_bounds.2.1 "0" 1000 1 20000 (by decide) (by decide),
    c3_amended_resolution_bounds.2.2.1 "25000" 1000 1 20000 (by decide) (by decide) (by decide),
    c3_amended_resolution_bounds.2.2.2.2.2.2.2.2.2.1 "fastest" "roundrobin"
      ["leastconn", "roundrobin", "source"] (by decide) (by decide),
    c3_amended_resolution_bounds.2.2.2.2.2.2.2.2.2.2.2 "yes" false (by decide)⟩

/-! ## Claim C5 -/

/-- The annotations of end-to-end scenario C: connection-limit 15000. -/
def scenarioCAnnotations : List (String × String) :=
  [(annoLoadBalancerConnectionLimit, "15000")]

/-- The options scenario C resolves to. -/
def scenarioCOptions : LBOptions := ⟨"roundrobin", 30, 15000, false, 3, 5, 3, 5, 60⟩

/-- Scenario port list: one service port 80 with node port 30080. -/
def scenarioPorts : List ServicePort := [⟨80, 30080⟩]

/-- Scenario node list: one node with one external address. -/
def scenarioNodes : List KubeNode := [⟨[⟨"ExternalIP", "10.0.0.5"⟩]⟩]

/-- The configuration rendered for scenario C. -/
def scenarioCConfig : String := renderConfig scenarioCOptions scenarioPorts scenarioNodes

/-- The configuration rendered with all options at their defaults. -/
def defaultConfig : String := renderConfig defaultLBOptions scenarioPorts scenarioNodes

set_option maxRecDepth 20000 in
/-- C5 (counterexample): connection-limit 15000 does not map to the
2-core tier: the processor count is 4, not 2, and the rendered global
block shows neither `nbproc 2` nor a stop after index 2 (index 3 is
pinned too). -/
theorem c5_counterexample_not_two_cores :
    getProcessorCountByConnectionLimit 15000 = 4
      ∧ ¬ getProcessorCountByConnectionLimit 15000 = 2
      ∧ ¬ strContains scenarioCConfig "nbproc 2"
      ∧ strContains scenarioCConfig "\tcpu-map 3 3\n" :=
  ⟨by decide, by decide, not_strContains_of_B (by rfl), strContains_of_B (by rfl)⟩

set_option maxRecDepth 20000 in
/-- C5 (amended): connection-limit 15000 maps to the top (4-core)
capacity tier: processor count 4, package id `9559dbb4b71c45`, and the
rendered global block shows `nbproc 4` with cpu pinning for exactly the
indices 1..4. -/
theorem c5_amended_four_core_tier :
    getProcessorCountByConnectionLimit 15000 = 4
      ∧ getPackageIDByConnectionLimit 15000 = "9559dbb4b71c45"
      ∧ resolveUpdateOptions scenarioCAnnotations = Except.ok scenarioCOptions
      ∧ strContains scenarioCConfig "nbproc 4"
      ∧ strContains scenarioCConfig "\tcpu-map 1 1\n\tcpu-map 2 2\n\tcpu-map 3 3\n\tcpu-map 4 4\n"
      ∧ ¬ strContains scenarioCConfig "\tcpu-map 5 5\n"
      ∧ ¬ strContains scenarioCConfig "\tcpu-map 0 0\n" :=
  ⟨by decide, by decide, rfl, strContains_of_B (by rfl), strContains_of_B (by rfl),
    not_strContains_of_B (by rfl), not_strContains_of_B (by rfl)⟩

/-! ## Claim C6 -/

/-- The health-check-protocol annotation key of the older, protocol-aware
renderer variant; the current variant does not read it. -/
def annoLoadBalancerHealthCheckProtocol : String :=
  "kubernetes.cloud.dk/load-balancer-health-check-protocol"

set_option maxRecDepth 20000 in
/-- C6 (counterexample): in the current renderer the health-check
directive is not selected by the health-check protocol: with the
health-check-protocol annotation set to `http`, resolution ignores the
key entirely and the rendered listen block still carries the plain
`tcp-check` directive, with no `httpchk` path-based check anywhere. -/
theorem c6_counterexample_protocol_ignored :
    resolveUpdateOptions [(annoLoadBalancerHealthCheckProtocol, "http")]
        = Except.ok defaultLBOptions
      ∧ strContains defaultConfig "\toption tcp-check"
      ∧ ¬ strContains defaultConfig "httpchk"
      ∧ ¬ strContains defaultConfig "ssl-hello-chk" :=
  ⟨rfl, strContains_of_B (by rfl), not_strContains_of_B (by rfl),
    not_strContains_of_B (by rfl)⟩

/-- C6 (amended): the protocol-selected health-check directive
(HTTP → `option httpchk GET <path>`, HTTPS → `option ssl-hello-chk`,
anything else → `option tcp-check`) exists only in the older renderer
variant's selection logic; the current renderer emits `option tcp-check`
in every listen block regardless of any annotation. -/
theorem c6_amended_health_check_directives :
    (∀ path : String,
        healthCheckOption "http" path = "\toption httpchk GET " ++ path ++ " HTTP/1.0\n")
      ∧ (∀ path : String, healthCheckOption "https" path = "\toption ssl-hello-chk\n")
      ∧ (∀ proto path : String, proto ≠ "http" → proto ≠ "https" →
          healthCheckOption proto path = "\toption tcp-check\n")
      ∧ (∀ (o : LBOptions) (ports : List ServicePort) (nodes : List KubeNode) (p : ServicePort),
          p ∈ ports → strContains (renderConfig o ports nodes) "\n\n\toption tcp-check") := by
  refine ⟨fun path => rfl, fun path => rfl, ?_, ?_⟩
  · intro proto path h1 h2
    unfold healthCheckOption
    rw [if_neg (by simpa using h1), if_neg (by simpa using h2)]
  · intro o ports nodes p hp
    rw [renderConfig_eq]
    apply strContains_right
    apply strContains_trans ?_ (concatMap_mem_contains _ hp)
    unfold listenBlock
    apply strContains_left
    apply strContains_left
    rw [goTrimSpace_listenTemplate]
    exact strContains_right _ (strContains_self _)

/-- C6 witness. -/
theorem c6_amended_witness :
    healthCheckOption "tcp" "/" = "\toption tcp-check\n"
      ∧ strContains defaultConfig "\n\n\toption tcp-check" :=
  ⟨c6_amended_health_check_directives.2.2.1 "tcp" "/" (by decide) (by decide),
    c6_amended_health_check_directives.2.2.2 defaultLBOptions scenarioPorts scenarioNodes
      ⟨80, 30080⟩ (by decide)⟩

/-! ## Claim C9 -/

set_option maxRecDepth 20000 in
/-- C9 (confirmed): the defaults block's `maxconn` equals
`connectionLimit / processorCount` (Go truncating division), and every
rendered server line is produced by `serverLine` with that same
connection ceiling — one line per external address, in order.  With the
default connection-limit 1000 the processor count is 1, so every
`maxconn` is 1000, as the rendered default configuration shows
concretely. -/
theorem c9_maxconn_division (o : LBOptions) (ports : List ServicePort) (nodes : List KubeNode)
    (p : ServicePort) :
    strContains (renderConfig o ports nodes)
        ("\n\tmaxconn "
          ++ toString (Int.tdiv o.connectionLimit
              (getProcessorCountByConnectionLimit o.connectionLimit))
          ++ "\n\tmode tcp")
      ∧ portServerLines o (getProcessorCountByConnectionLimit o.connectionLimit) nodes p
          = concatMap
              (fun a => serverLine o.enableProxyProtocol a.address p.nodePort
                (Int.tdiv o.connectionLimit
                  (getProcessorCountByConnectionLimit o.connectionLimit))
                o.healthCheckInterval o.healthCheckThresholdUnhealthy
                o.healthCheckThresholdHealthy)
              (externalAddresses nodes)
      ∧ getProcessorCountByConnectionLimit 1000 = 1
      ∧ Int.tdiv 1000 1 = 1000
      ∧ strContains defaultConfig "\n\tmaxconn 1000\n\tmode tcp"
      ∧ strContains defaultConfig
          "\tserver 10.0.0.5:30080 10.0.0.5:30080 maxconn 1000 check inter 3 fall 3 rise 5\n" := by
  refine ⟨?_, portServerLines_eq o _ nodes p, by decide, by decide,
    strContains_of_B (by rfl), strContains_of_B (by rfl)⟩
  rw [renderConfig_eq]
  apply strContains_left
  unfold renderHead
  apply strContains_left
  apply strContains_right
  exact defaults_contains_maxconn _ _ _ _ _

end CloudDK

namespace CloudDK

/-! ## Claim C2 -/

theorem create_zero_nics_destroys (o : CreateOutcomes) (h1 : o.postOk = true)
    (h2 : o.decodeOk = true) (h3 : o.response.networkInterfaces.length = 0) :
    (cloudServerCreate ServerInfo.empty o).1 = Except.error CreateError.noNetworkInterfaces
      ∧ Action.destroyServer ∈ (cloudServerCreate ServerInfo.empty o).2 := by
  have e : cloudServerCreate ServerInfo.empty o
      = (Except.error CreateError.noNetworkInterfaces,
          [Action.createRequest, Action.destroyServer]) := by
    simp only [cloudServerCreate]
    rw [if_neg (fun h => h rfl), if_neg (by simp [h1]), if_neg (by simp [h2]), if_pos h3]
  rw [e]
  exact ⟨rfl, by simp⟩

theorem create_sshTimeout_destroys (o : CreateOutcomes) (h1 : o.postOk = true)
    (h2 : o.decodeOk = true) (h3 : o.response.networkInterfaces.length ≠ 0)
    (h4 : (pollLoop o.dialOk pollFuel 0).success = false) :
    (cloudServerCreate ServerInfo.empty o).1 = Except.error CreateError.sshTimeout
      ∧ Action.destroyServer ∈ (cloudServerCreate ServerInfo.empty o).2 := by
  have e : cloudServerCreate ServerInfo.empty o
      = (Except.error CreateError.sshTimeout,
          [Action.createRequest]
            ++ (pollLoop o.dialOk pollFuel 0).attempts.map Action.dial
            ++ [Action.destroyServer]) := by
    simp only [cloudServerCreate]
    rw [if_neg (fun h => h rfl), if_neg (by simp [h1]), if_neg (by simp [h2]), if_neg h3,
      if_pos (by simp [h4])]
  rw [e]
  exact ⟨rfl, by simp⟩

theorem create_destroys_after_decode (o : CreateOutcomes) (h1 : o.postOk = true)
    (h2 : o.decodeOk = true) (hf : isError (cloudServerCreate ServerInfo.empty o).1 = true) :
    Action.destroyServer ∈ (cloudServerCreate ServerInfo.empty o).2 := by
  by_cases h3 : o.response.networkInterfaces.length = 0
  · exact (create_zero_nics_destroys o h1 h2 h3).2
  · by_cases h4 : (pollLoop o.dialOk pollFuel 0).success = true
    · by_cases h5 : o.sftpOk = true
      · by_cases h6 : o.uploadOk = true
        · by_cases h7 : o.sessionOk = true
          · by_cases h8 : o.shellOk = true
            · exfalso
              have e : cloudServerCreate ServerInfo.empty o
                  = (Except.ok o.response,
                      [Action.createRequest]
                        ++ (pollLoop o.dialOk pollFuel 0).attempts.map Action.dial
                        ++ [Action.upload pathAPTAutoConf, Action.runCommand]) := by
                simp only [cloudServerCreate]
                rw [if_neg (fun h => h rfl), if_neg (by simp [h1]), if_neg (by simp [h2]),
                  if_neg h3, if_neg (by simp [h4]), if_neg (by simp [h5]),
                  if_neg (by simp [h6]), if_neg (by simp [h7]), if_neg (by simp [h8])]
              rw [e] at hf
              simp [isError] at hf
            · have e : cloudServerCreate ServerInfo.empty o
                  = (Except.error CreateError.shellFailed,
                      [Action.createRequest]
                        ++ (pollLoop o.dialOk pollFuel 0).attempts.map Action.dial
                        ++ [Action.upload pathAPTAutoConf, Action.runCommand,
                            Action.destroyServer]) := by
                simp only [cloudServerCreate]
                rw [if_neg (fun h => h rfl), if_neg (by simp [h1]), if_neg (by simp [h2]),
                  if_neg h3, if_neg (by simp [h4]), if_neg (by simp [h5]),
                  if_neg (by simp [h6]), if_neg (by simp [h7]),
                  if_pos (by simp [bool_false_of_not_true h8])]
              rw [e]
              simp
          · have e : cloudServerCreate ServerInfo.empty o
                = (Except.error CreateError.sessionFailed,
                    [Action.createRequest]
                      ++ (pollLoop o.dialOk pollFuel 0).attempts.map Action.dial
                      ++ [Action.upload pathAPTAutoConf, Action.destroyServer]) := by
              simp only [cloudServerCreate]
              rw [if_neg (fun h => h rfl), if_neg (by simp [h1]), if_neg (by simp [h2]),
                if_neg h3, if_neg (by simp [h4]), if_neg (by simp [h5]),
                if_neg (by simp [h6]), if_pos (by simp [bool_false_of_not_true h7])]
            rw [e]
            simp
        · have e : cloudServerCreate ServerInfo.empty o
              = (Except.error CreateError.uploadFailed,
                  [Action.createRequest]
                    ++ (pollLoop o.dialOk pollFuel 0).attempts.map Action.dial
                    ++ [Action.destroyServer]) := by
            simp only [cloudServerCreate]
            rw [if_neg (fun h => h rfl), if_neg (by simp [h1]), if_neg (by simp [h2]),
              if_neg h3, if_neg (by simp [h4]), if_neg (by simp [h5]),
              if_pos (by simp [bool_false_of_not_true h6])]
          rw [e]
          simp
      · have e : cloudServerCreate ServerInfo.empty o
            = (Except.error CreateError.sftpFailed,
                [Action.createRequest]
                  ++ (pollLoop o.dialOk pollFuel 0).attempts.map Action.dial
                  ++ [Action.destroyServer]) := by
          simp only [cloudServerCreate]
          rw [if_neg (fun h => h rfl), if_neg (by simp [h1]), if_neg (by simp [h2]),
            if_neg h3, if_neg (by simp [h4]), if_pos (by simp [bool_false_of_not_true h5])]
        rw [e]
        simp
    · exact (create_sshTimeout_destroys o h1 h2 h3 (bool_false_of_not_true h4)).2

theorem lbCreate_tail_eq (annos : List (String × String)) (o : LBCreateOutcomes)
    (info : ServerInfo) (acts : List Action)
    (hParse : ( parseIntAnnotationValue (annoGet annos annoLoadBalancerConnectionLimit)
        1000 1 20000).2 = none)
    (hc : cloudServerCreate ServerInfo.empty o.server = (Except.ok info, acts)) :
    createLoadBalancer annos o
      = (if !o.sshOk then
          (Except.error LBCreateError.sshFailed, acts ++ [Action.destroyServer])
        else if !o.sftpOk then
          (Except.error LBCreateError.sftpFailed, acts ++ [Action.destroyServer])
        else if !o.uploadOverrideOk then
          (Except.error (LBCreateError.uploadFailed pathHAProxyOverrideConf),
            acts ++ [Action.destroyServer])
        else if !o.uploadScriptOk then
          (Except.error (LBCreateError.uploadFailed pathLoadBalancerProvisionScript),
            acts ++ [Action.upload pathHAProxyOverrideConf, Action.destroyServer])
        else if !o.uploadLimitsOk then
          (Except.error (LBCreateError.uploadFailed pathSecurityLimitsConf),
            acts ++ [Action.upload pathHAProxyOverrideConf,
              Action.upload pathLoadBalancerProvisionScript, Action.destroyServer])
        else if !o.uploadSysctlOk then
          (Except.error (LBCreateError.uploadFailed pathSysctlConf),
            acts ++ [Action.upload pathHAProxyOverrideConf,
              Action.upload pathLoadBalancerProvisionScript,
              Action.upload pathSecurityLimitsConf, Action.destroyServer])
        else if !o.sessionOk then
          (Except.error LBCreateError.sessionFailed,
            acts ++ [Action.upload pathHAProxyOverrideConf,
              Action.upload pathLoadBalancerProvisionScript,
              Action.upload pathSecurityLimitsConf, Action.upload pathSysctlConf,
              Action.destroyServer])
        else if !o.scriptOk then
          (Except.error LBCreateError.scriptFailed,
            acts ++ [Action.upload pathHAProxyOverrideConf,
              Action.upload pathLoadBalancerProvisionScript,
              Action.upload pathSecurityLimitsConf, Action.upload pathSysctlConf,
              Action.runCommand, Action.destroyServer])
        else
          (Except.ok info,
            acts ++ [Action.upload pathHAProxyOverrideConf,
              Action.upload pathLoadBalancerProvisionScript,
              Action.upload pathSecurityLimitsConf, Action.upload pathSysctlConf,
              Action.runCommand])) := by
  simp only [createLoadBalancer]
  rw [hParse, hc]

theorem lbCreate_destroys_post_create (annos : List (String × String)) (o : LBCreateOutcomes)
    (hParse : ( parseIntAnnotationValue (annoGet annos annoLoadBalancerConnectionLimit)
        1000 1 20000).2 = none)
    (hCreateOk : isError (cloudServerCreate ServerInfo.empty o.server).1 = false)
    (hFail : isError (createLoadBalancer annos o).1 = true) :
    Action.destroyServer ∈ (createLoadBalancer annos o).2 := by
  rcases hc : cloudServerCreate ServerInfo.empty o.server with ⟨res, acts⟩
  rw [hc] at hCreateOk
  cases res with
  | error e => simp [isError] at hCreateOk
  | ok info =>
    have e := lbCreate_tail_eq annos o info acts hParse hc
    rw [e] at hFail ⊢
    by_cases h1 : o.sshOk = true
    case neg => simp [bool_false_of_not_true h1]
    all_goals by_cases h2 : o.sftpOk = true
    case neg => simp [h1, bool_false_of_not_true h2]
    all_goals by_cases h3 : o.uploadOverrideOk = true
    case neg => simp [h1, h2, bool_false_of_not_true h3]
    all_goals by_cases h4 : o.uploadScriptOk = true
    case neg => simp [h1, h2, h3, bool_false_of_not_true h4]
    all_goals by_cases h5 : o.uploadLimitsOk = true
    case neg => simp [h1, h2, h3, h4, bool_false_of_not_true h5]
    all_goals by_cases h6 : o.uploadSysctlOk = true
    case neg => simp [h1, h2, h3, h4, h5, bool_false_of_not_true h6]
    all_goals by_cases h7 : o.sessionOk = true
    case neg => simp [h1, h2, h3, h4, h5, h6, bool_false_of_not_true h7]
    all_goals by_cases h8 : o.scriptOk = true
    case neg => simp [h1, h2, h3, h4, h5, h6, h7, bool_false_of_not_true h8]
    all_goals simp [isError, h1, h2, h3, h4, h5, h6, h7, h8] at hFail

/-- C2 (counterexample): not every failure path during instance creation
destroys the partially-created instance: when the create POST has
succeeded but decoding its response fails, `CloudServer.Create` returns
the decode error without issuing any destroy request, so that failed
create leaves the created backing instance behind. -/
theorem c2_counterexample_decode_failure_no_destroy :
    (cloudServerCreate ServerInfo.empty
        ⟨true, false, ServerInfo.empty, fun _ => true, true, true, true, true⟩).1
        = Except.error CreateError.decodeFailed
      ∧ Action.destroyServer ∉ (cloudServerCreate ServerInfo.empty
          ⟨true, false, ServerInfo.empty, fun _ => true, true, true, true, true⟩).2 :=
  ⟨rfl, by decide⟩

/-- C2 (amended): once the create response has been decoded, every
failure path of `CloudServer.Create` destroys the instance before
returning the error — in particular the zero-network-interfaces check and
the SSH readiness timeout — and `createLoadBalancer` destroys the server
on every failure after a successful create (SSH, SFTP, each file upload,
session creation, provisioning-script execution).  The one exception is
inside `Create` itself: a response-decode failure after a successful POST
returns the error without destroying. -/
theorem c2_amended_rollback_on_failure :
    (∀ o : CreateOutcomes, o.postOk = true → o.decodeOk = true →
        o.response.networkInterfaces.length = 0 →
        (cloudServerCreate ServerInfo.empty o).1 = Except.error CreateError.noNetworkInterfaces
          ∧ Action.destroyServer ∈ (cloudServerCreate ServerInfo.empty o).2)
      ∧ (∀ o : CreateOutcomes, o.postOk = true → o.decodeOk = true →
          o.response.networkInterfaces.length ≠ 0 →
          (pollLoop o.dialOk pollFuel 0).success = false →
          (cloudServerCreate ServerInfo.empty o).1 = Except.error CreateError.sshTimeout
            ∧ Action.destroyServer ∈ (cloudServerCreate ServerInfo.empty o).2)
      ∧ (∀ o : CreateOutcomes, o.postOk = true → o.decodeOk = true →
          isError (cloudServerCreate ServerInfo.empty o).1 = true →
          Action.destroyServer ∈ (cloudServerCreate ServerInfo.empty o).2)
      ∧ (∀ (annos : List (String × String)) (o : LBCreateOutcomes),
          ( parseIntAnnotationValue (annoGet annos annoLoadBalancerConnectionLimit)
              1000 1 20000).2 = none →
          isError (cloudServerCreate ServerInfo.empty o.server).1 = false →
          isError (createLoadBalancer annos o).1 = true →
          Action.destroyServer ∈ (createLoadBalancer annos o).2) :=
  ⟨create_zero_nics_destroys, create_sshTimeout_destroys, create_destroys_after_decode,
    lbCreate_destroys_post_create⟩

/-- C2 witness. -/
theorem c2_amended_rollback_witness :
    ((cloudServerCreate ServerInfo.empty
          ⟨true, true, ServerInfo.empty, fun _ => true, true, true, true, true⟩).1
        = Except.error CreateError.noNetworkInterfaces
      ∧ Action.destroyServer ∈ (cloudServerCreate ServerInfo.empty
          ⟨true, true, ServerInfo.empty, fun _ => true, true, true, true, true⟩).2)
      ∧ Action.destroyServer ∈ (createLoadBalancer []
          ⟨⟨true, true, ⟨"id1", "host1", [⟨[⟨"10.0.0.9"⟩]⟩]⟩, fun _ => true, true, true, true, true⟩,
            true, true, true, true, true, true, true, false⟩).2 :=
  ⟨c2_amended_rollback_on_failure.1 _ rfl rfl rfl,
    c2_amended_rollback_on_failure.2.2.2 [] _ rfl rfl rfl⟩

end CloudDK
namespace CloudDK

/-! ## Claim C4 -/

theorem initByHostname_found (hostname : String) (w : StoreWorld) (v : ServerInfo)
    (hne : hostname ≠ "") (hl : w.listOk = true)
    (hf : w.servers.find? (fun s => s.hostname == hostname) = some v) :
    initializeByHostname ServerInfo.empty hostname w = ((false, none), v) := by
  unfold initializeByHostname
  rw [if_neg (fun h => h rfl), if_neg hne,
    if_neg (by rw [hl]; exact fun h => Bool.noConfusion h), hf]

theorem initByHostname_notFound (hostname : String) (w : StoreWorld)
    (hne : hostname ≠ "") (hl : w.listOk = true)
    (hf : w.servers.find? (fun s => s.hostname == hostname) = none) :
    initializeByHostname ServerInfo.empty hostname w
      = ((true, some ("Failed to retrieve the server object for hostname " ++ hostname)),
          ServerInfo.empty) := by
  unfold initializeByHostname
  rw [if_neg (fun h => h rfl), if_neg hne,
    if_neg (by rw [hl]; exact fun h => Bool.noConfusion h), hf]

theorem initByHostname_listErr (hostname : String) (w : StoreWorld)
    (hne : hostname ≠ "") (hl : w.listOk = false) :
    initializeByHostname ServerInfo.empty hostname w
      = ((false, some "request failed"), ServerInfo.empty) := by
  unfold initializeByHostname
  rw [if_neg (fun h => h rfl), if_neg hne, if_pos (by rw [hl]; rfl)]

theorem destroy_ok_eq (s : ServerInfo) (w : StoreWorld) (hid : s.identifier ≠ "")
    (hst : doClientRequestOk [200, 404] w.deleteStatus = true) :
    cloudServerDestroy s w
      = ((none, ServerInfo.empty,
          ⟨w.servers.filter (fun v => v.identifier ≠ s.identifier), w.listOk, w.deleteStatus⟩),
          [Action.destroyServer]) := by
  unfold cloudServerDestroy
  rw [if_neg hid, if_pos hst]

theorem destroy_fail_eq (s : ServerInfo) (w : StoreWorld) (hid : s.identifier ≠ "")
    (hst : doClientRequestOk [200, 404] w.deleteStatus = false) :
    cloudServerDestroy s w
      = ((some "Failed to destroy cloud server", s, w), [Action.destroyServer]) := by
  unfold cloudServerDestroy
  rw [if_neg hid, if_neg (by rw [hst]; exact fun h => Bool.noConfusion h)]

theorem ensureDeleted_notFound (c uid : String) (w : StoreWorld) (hl : w.listOk = true)
    (hf : w.servers.find? (fun v => v.hostname == hostnameForService c uid) = none) :
    ensureLoadBalancerDeleted c uid w = (none, w) := by
  simp only [ensureLoadBalancerDeleted]
  rw [initByHostname_notFound _ _ (hostnameForService_ne_empty c uid) hl hf]
  rfl

theorem ensureDeleted_found_ok (c uid : String) (w : StoreWorld) (v : ServerInfo)
    (hl : w.listOk = true)
    (hf : w.servers.find? (fun x => x.hostname == hostnameForService c uid) = some v)
    (hid : v.identifier ≠ "") (hst : doClientRequestOk [200, 404] w.deleteStatus = true) :
    ensureLoadBalancerDeleted c uid w
      = (none, ⟨w.servers.filter (fun x => x.identifier ≠ v.identifier),
          w.listOk, w.deleteStatus⟩) := by
  simp only [ensureLoadBalancerDeleted]
  rw [initByHostname_found _ _ _ (hostnameForService_ne_empty c uid) hl hf]
  rw [show ((((false : Bool), (none : Option String)), v) : (Bool × Option String) × ServerInfo).2
      = v from rfl]
  rw [destroy_ok_eq v w hid hst]

theorem ensureDeleted_found_fail (c uid : String) (w : StoreWorld) (v : ServerInfo)
    (hl : w.listOk = true)
    (hf : w.servers.find? (fun x => x.hostname == hostnameForService c uid) = some v)
    (hid : v.identifier ≠ "") (hst : doClientRequestOk [200, 404] w.deleteStatus = false) :
    ensureLoadBalancerDeleted c uid w = (some "Failed to destroy cloud server", w) := by
  simp only [ensureLoadBalancerDeleted]
  rw [initByHostname_found _ _ _ (hostnameForService_ne_empty c uid) hl hf]
  rw [show ((((false : Bool), (none : Option String)), v) : (Bool × Option String) × ServerInfo).2
      = v from rfl]
  rw [destroy_fail_eq v w hid hst]


/-- C4 (confirmed): `EnsureLoadBalancerDeleted` returns success when no
instance with the derived hostname exists; a successful delete followed
by another delete also succeeds (idempotence); `Destroy` treats a 404
answer to the `DELETE` request as success; and a destroy failure is
propagated to the caller. -/
theorem c4_delete_idempotent :
    (∀ (c uid : String) (w : StoreWorld), w.listOk = true →
        w.servers.find? (fun v => v.hostname == hostnameForService c uid) = none →
        ensureLoadBalancerDeleted c uid w = (none, w))
      ∧ (∀ (c uid : String) (w : StoreWorld), w.listOk = true →
          (∀ v ∈ w.servers, v.identifier ≠ "") →
          (ensureLoadBalancerDeleted c uid w).1 = none →
          (ensureLoadBalancerDeleted c uid (ensureLoadBalancerDeleted c uid w).2).1 = none)
      ∧ (∀ (s : ServerInfo) (w : StoreWorld), s.identifier ≠ "" → w.deleteStatus = 404 →
          (cloudServerDestroy s w).1.1 = none)
      ∧ (∀ (c uid : String) (w : StoreWorld) (v : ServerInfo), w.listOk = true →
          w.servers.find? (fun x => x.hostname == hostnameForService c uid) = some v →
          v.identifier ≠ "" → doClientRequestOk [200, 404] w.deleteStatus = false →
          (ensureLoadBalancerDeleted c uid w).1 = some "Failed to destroy cloud server") := by
  refine ⟨ensureDeleted_notFound, ?_, ?_, ?_⟩
  · intro c uid w hl hwf h1
    cases hfind : w.servers.find? (fun v => v.hostname == hostnameForService c uid) with
    | none =>
      have e := ensureDeleted_notFound c uid w hl hfind
      rw [e]
      rw [show (none, w).2 = w from rfl, e]
    | some v =>
      have hid : v.identifier ≠ "" := hwf v (List.mem_of_find?_eq_some hfind)
      by_cases hst : doClientRequestOk [200, 404] w.deleteStatus = true
      · have e := ensureDeleted_found_ok c uid w v hl hfind hid hst
        rw [e]
        cases hfind2 : (w.servers.filter (fun x => x.identifier ≠ v.identifier)).find?
            (fun x => x.hostname == hostnameForService c uid) with
        | none =>
          rw [ensureDeleted_notFound c uid
            ⟨w.servers.filter (fun x => x.identifier ≠ v.identifier), w.listOk, w.deleteStatus⟩
            hl hfind2]
        | some v2 =>
          have hmem2 : v2 ∈ w.servers := by
            have := List.mem_of_find?_eq_some hfind2
            exact (List.mem_filter.mp this).1
          have hid2 : v2.identifier ≠ "" := hwf v2 hmem2
          rw [ensureDeleted_found_ok c uid
            ⟨w.servers.filter (fun x => x.identifier ≠ v.identifier), w.listOk, w.deleteStatus⟩
            v2 hl hfind2 hid2 hst]
      · exfalso
        rw [ensureDeleted_found_fail c uid w v hl hfind hid (bool_false_of_not_true hst)] at h1
        exact Option.noConfusion h1
  · intro s w hid hst
    simp [cloudServerDestroy, if_neg (by simpa using hid), doClientRequestOk, hst]
  · intro c uid w v hl hf hid hst
    rw [ensureDeleted_found_fail c uid w v hl hf hid hst]

/-- C4 witness. -/
theorem c4_delete_idempotent_witness :
    ensureLoadBalancerDeleted "demo" "svc123" ⟨[], true, 200⟩ = (none, ⟨[], true, 200⟩)
      ∧ (cloudServerDestroy ⟨"id1", "host1", []⟩ ⟨[], true, 404⟩).1.1 = none :=
  ⟨c4_delete_idempotent.1 "demo" "svc123" ⟨[], true, 200⟩ rfl rfl,
    c4_delete_idempotent.2.2.1 ⟨"id1", "host1", []⟩ ⟨[], true, 404⟩ (by decide) rfl⟩

end CloudDK
namespace CloudDK

/-! ## Claim C7 -/

/-- C7 (confirmed): when `UpdateLoadBalancer` has uploaded the newly
rendered configuration and the subsequent reload fails, the reload error
is returned, the instance keeps the newly uploaded configuration text,
and the action trace is exactly the upload followed by the reload — the
upload strictly precedes the reload and nothing after the failed reload
writes to the instance. -/
theorem c7_reload_failure_keeps_uploaded_config (c uid : String)
    (annos : List (String × String)) (ports : List ServicePort) (nodes : List KubeNode)
    (w : StoreWorld) (inst : InstanceState) (o : UpdateOutcomes) (v : ServerInfo)
    (opts : LBOptions) (hl : w.listOk = true)
    (hf : w.servers.find? (fun s => s.hostname == hostnameForService c uid) = some v)
    (hn : ¬ v.networkInterfaces.length = 0)
    (hres : resolveUpdateOptions annos = Except.ok opts)
    (h1 : o.sshOk = true) (h2 : o.sftpOk = true) (h3 : o.createFileOk = true)
    (h4 : o.writeOk = true) (h5 : o.sessionOk = true) (h6 : o.reloadOk = false) :
    updateLoadBalancer c uid annos ports nodes w inst o
      = (some "Failed to load the new configuration file",
          ⟨some (renderConfig opts ports nodes)⟩,
          [Action.uploadConfig (renderConfig opts ports nodes), Action.reload]) := by
  simp only [updateLoadBalancer]
  rw [initByHostname_found _ _ _ (hostnameForService_ne_empty c uid) hl hf]
  rw [if_neg hn, hres]
  simp [h1, h2, h3, h4, h5, h6]

/-- The concrete backing instance used by the C7 witness, registered in
the store under the derived hostname. -/
def c7WitnessServer : ServerInfo :=
  ⟨"id1", hostnameForService "demo" "svc123", [⟨[⟨"10.0.0.9"⟩]⟩]⟩

/-- C7 witness. -/
theorem c7_reload_failure_witness :
    updateLoadBalancer "demo" "svc123" [] scenarioPorts scenarioNodes
        ⟨[c7WitnessServer], true, 200⟩ ⟨none⟩ ⟨true, true, true, true, true, false⟩
      = (some "Failed to load the new configuration file",
          ⟨some (renderConfig defaultLBOptions scenarioPorts scenarioNodes)⟩,
          [Action.uploadConfig (renderConfig defaultLBOptions scenarioPorts scenarioNodes),
            Action.reload]) :=
  c7_reload_failure_keeps_uploaded_config "demo" "svc123" [] scenarioPorts scenarioNodes
    ⟨[c7WitnessServer], true, 200⟩ ⟨none⟩ ⟨true, true, true, true, true, false⟩
    c7WitnessServer defaultLBOptions rfl
    (by simp [c7WitnessServer, List.find?_cons]) (by simp [c7WitnessServer]) rfl
    rfl rfl rfl rfl rfl rfl

/-! ## Claim C8 -/

/-- C8 (confirmed): the SSH readiness poll of `CloudServer.Create` always
terminates through its own 300-second guard (the embedding's fuel never
runs out), exits within the window plus one final iteration step, makes
every dial attempt strictly inside the window at an elapsed time whose
whole-second value is a multiple of ten (the fixed 10-second cadence),
and when no dial attempt succeeds before the window is exhausted,
`Create` destroys the instance and returns the timeout error. -/
theorem c8_poll_bounded_cadence (d : Nat → Bool) :
    (pollLoop d pollFuel 0).fuelExhausted = false
      ∧ (pollLoop d pollFuel 0).finalElapsed < pollWindowMs + 1200
      ∧ (∀ t ∈ (pollLoop d pollFuel 0).attempts, t < pollWindowMs ∧ (t / 1000) % 10 = 0)
      ∧ (∀ o : CreateOutcomes, o.postOk = true → o.decodeOk = true →
          o.response.networkInterfaces.length ≠ 0 →
          (pollLoop o.dialOk pollFuel 0).success = false →
          (cloudServerCreate ServerInfo.empty o).1 = Except.error CreateError.sshTimeout
            ∧ Action.destroyServer ∈ (cloudServerCreate ServerInfo.empty o).2) := by
  refine ⟨pollLoop_fuel_enough d pollFuel 0 (by unfold pollWindowMs pollFuel; omega),
    ?_, ?_, create_sshTimeout_destroys⟩
  · have h := pollLoop_finalElapsed_lt d pollFuel 0 (by omega)
    unfold pollWindowMs
    omega
  · intro t ht
    have h := pollLoop_attempts_spec d pollFuel 0 t ht
    exact ⟨h.2.1, h.2.2⟩

/-- C8 witness. -/
theorem c8_poll_witness :
    (0 < pollWindowMs ∧ (0 / 1000) % 10 = 0)
      ∧ ((cloudServerCreate ServerInfo.empty
            ⟨true, true, ⟨"id1", "host1", [⟨[⟨"10.0.0.9"⟩]⟩]⟩,
              fun _ => false, true, true, true, true⟩).1
          = Except.error CreateError.sshTimeout
        ∧ Action.destroyServer ∈ (cloudServerCreate ServerInfo.empty
            ⟨true, true, ⟨"id1", "host1", [⟨[⟨"10.0.0.9"⟩]⟩]⟩,
              fun _ => false, true, true, true, true⟩).2) :=
  ⟨(c8_poll_bounded_cadence (fun _ => true)).2.2.1 0 (by decide),
    (c8_poll_bounded_cadence (fun _ => false)).2.2.2
      ⟨true, true, ⟨"id1", "host1", [⟨[⟨"10.0.0.9"⟩]⟩]⟩, fun _ => false, true, true, true, true⟩
      rfl rfl (by decide) (by decide)⟩

end CloudDK
namespace CloudDK

/-! ## Claim C10 -/

theorem getLB_notFound (c uid : String) (w : StoreWorld) (hl : w.listOk = true)
    (hf : w.servers.find? (fun v => v.hostname == hostnameForService c uid) = none) :
    getLoadBalancer c uid w = ⟨[], false, none⟩ := by
  simp only [getLoadBalancer]
  rw [initByHostname_notFound _ _ (hostnameForService_ne_empty c uid) hl hf]
  rfl

theorem getLB_listErr (c uid : String) (w : StoreWorld) (hl : w.listOk = false) :
    getLoadBalancer c uid w = ⟨[], true, some "request failed"⟩ := by
  simp only [getLoadBalancer]
  rw [initByHostname_listErr _ _ (hostnameForService_ne_empty c uid) hl]
  rfl

theorem getLB_zeroAddrs (c uid : String) (w : StoreWorld) (v : ServerInfo)
    (hl : w.listOk = true)
    (hf : w.servers.find? (fun x => x.hostname == hostnameForService c uid) = some v)
    (he : v.networkInterfaces.flatMap (fun nic => nic.ipAddresses.map IPAddress.address) = []) :
    getLoadBalancer c uid w = ⟨[], true, some "No IP addresses available for load balancer"⟩ := by
  simp only [getLoadBalancer]
  rw [initByHostname_found _ _ _ (hostnameForService_ne_empty c uid) hl hf]
  rw [if_pos (by rw [show ((((false : Bool), (none : Option String)), v)
      : (Bool × Option String) × ServerInfo).2 = v from rfl, he]; rfl)]

theorem getLB_withAddrs (c uid : String) (w : StoreWorld) (v : ServerInfo)
    (hl : w.listOk = true)
    (hf : w.servers.find? (fun x => x.hostname == hostnameForService c uid) = some v)
    (he : v.networkInterfaces.flatMap (fun nic => nic.ipAddresses.map IPAddress.address) ≠ []) :
    getLoadBalancer c uid w
      = ⟨v.networkInterfaces.flatMap (fun nic => nic.ipAddresses.map IPAddress.address),
          true, none⟩ := by
  simp only [getLoadBalancer]
  rw [initByHostname_found _ _ _ (hostnameForService_ne_empty c uid) hl hf]
  rw [if_neg (fun h => he (List.length_eq_zero.mp h))]

/-- C10 (confirmed): `GetLoadBalancer` never pairs `exists = false` with
an error: a not-found lookup returns `(false, nil)`, while a transport
failure during lookup and the inconsistent zero-address state are both
reported with `exists = true` together with the error, and a found
instance with addresses returns them with `(true, nil)`. -/
theorem c10_exists_never_false_with_error (c uid : String) (w : StoreWorld) :
    ((getLoadBalancer c uid w).found = false → (getLoadBalancer c uid w).err = none)
      ∧ (w.listOk = true →
          w.servers.find? (fun v => v.hostname == hostnameForService c uid) = none →
          getLoadBalancer c uid w = ⟨[], false, none⟩)
      ∧ (w.listOk = false →
          (getLoadBalancer c uid w).found = true
            ∧ (getLoadBalancer c uid w).err.isSome = true)
      ∧ (∀ v : ServerInfo, w.listOk = true →
          w.servers.find? (fun x => x.hostname == hostnameForService c uid) = some v →
          v.networkInterfaces.flatMap (fun nic => nic.ipAddresses.map IPAddress.address) = [] →
          getLoadBalancer c uid w
            = ⟨[], true, some "No IP addresses available for load balancer"⟩)
      ∧ (∀ v : ServerInfo, w.listOk = true →
          w.servers.find? (fun x => x.hostname == hostnameForService c uid) = some v →
          v.networkInterfaces.flatMap (fun nic => nic.ipAddresses.map IPAddress.address) ≠ [] →
          getLoadBalancer c uid w
            = ⟨v.networkInterfaces.flatMap (fun nic => nic.ipAddresses.map IPAddress.address),
                true, none⟩) := by
  refine ⟨?_, getLB_notFound c uid w, fun hl => by rw [getLB_listErr c uid w hl]; exact ⟨rfl, rfl⟩,
    fun v hl hf he => getLB_zeroAddrs c uid w v hl hf he,
    fun v hl hf he => getLB_withAddrs c uid w v hl hf he⟩
  intro hfound
  by_cases hl : w.listOk = true
  · cases hfind : w.servers.find? (fun v => v.hostname == hostnameForService c uid) with
    | none => rw [getLB_notFound c uid w hl hfind]
    | some v =>
      by_cases he : v.networkInterfaces.flatMap (fun nic => nic.ipAddresses.map IPAddress.address) = []
      · rw [getLB_zeroAddrs c uid w v hl hfind he] at hfound
        exact Bool.noConfusion hfound
      · rw [getLB_withAddrs c uid w v hl hfind he] at hfound
        exact Bool.noConfusion hfound
  · rw [getLB_listErr c uid w (bool_false_of_not_true hl)] at hfound
    exact Bool.noConfusion hfound

/-- C10 witness. -/
theorem c10_exists_witness :
    getLoadBalancer "demo" "svc123" ⟨[], true, 200⟩ = ⟨[], false, none⟩
      ∧ ((getLoadBalancer "demo" "svc123" ⟨[], false, 200⟩).found = true
        ∧ (getLoadBalancer "demo" "svc123" ⟨[], false, 200⟩).err.isSome = true) :=
  ⟨(c10_exists_never_false_with_error "demo" "svc123" ⟨[], true, 200⟩).2.1 rfl rfl,
    (c10_exists_never_false_with_error "demo" "svc123" ⟨[], false, 200⟩).2.2.1 rfl⟩

end CloudDK
